import Mathlib

/-!
Shallow embedding of the TCB subscription gift workflow.

Source files embedded here:
- app/services/appstle.server.ts (AppstleService: pagination, addGiftProducts;
  and the in-process cron job runCronJob appended to the same file)
- app/routes/webhooks.tsx (handleOrderPaid)
- app/routes/api.gift.verify.tsx (token verification loader)
- app/routes/api.gift.select.tsx (gift selection action)
- app/routes/app.gifts.tsx (admin actions processEligible / sendEmails)
- the /api/cron route (unified cron endpoint action)

Dates are modelled as integers measured in days, since every time computation
in the source is a whole-day offset (setDate of getDate plus or minus n days).  Database
tables are lists of records; each Prisma query/update is translated to the
corresponding list operation.  Outcomes of external calls (Appstle HTTP
requests, email sends) are inputs to the embedded functions.
-/

/-! ## JS string primitives used by the source -/

/-- `s.split(sep)` of JavaScript, on character lists. -/
def splitCharsOn (sep : Char) (cs : List Char) : List (List Char) :=
  cs.foldr
    (fun c acc =>
      if c = sep then [] :: acc
      else match acc with
        | g :: rest => (c :: g) :: rest
        | [] => [[c]])
    [[]]

/-- `s.trim()` of JavaScript: strip leading and trailing whitespace. -/
def trimChars (cs : List Char) : List Char :=
  ((cs.dropWhile Char.isWhitespace).reverse.dropWhile Char.isWhitespace).reverse

def digitVal (c : Char) : Nat := c.toNat - 48

def digitsToNat (ds : List Char) : Nat :=
  ds.foldl (fun a c => a * 10 + digitVal c) 0

/-- JavaScript `parseInt(s)` (radix 10): trim, optional sign, longest digit
prefix; `none` models `NaN`. -/
def parseIntJs (cs : List Char) : Option Int :=
  let t := trimChars cs
  match t with
  | '-' :: rest =>
      let ds := rest.takeWhile Char.isDigit
      if ds.isEmpty then none else some (-(digitsToNat ds : Int))
  | '+' :: rest =>
      let ds := rest.takeWhile Char.isDigit
      if ds.isEmpty then none else some (digitsToNat ds : Int)
  | _ =>
      let ds := t.takeWhile Char.isDigit
      if ds.isEmpty then none else some (digitsToNat ds : Int)

/-- `triggerOrderNumbers.split(",").map(n => parseInt(n.trim())).filter(n => !isNaN(n))`,
shared by every evaluation path. -/
def parseTriggerNumbers (s : String) : List Int :=
  (splitCharsOn ',' s.data).filterMap parseIntJs

/-- JavaScript truthiness of an optional string (`undefined`/`null`/`""` are falsy). -/
def strTruthy (o : Option String) : Bool :=
  match o with
  | none => false
  | some s => !s.isEmpty

/-! ## Data model (Prisma schema rows used by the claims) -/

/-- One `GiftEligibility` row. -/
structure GiftEligibility where
  id : Nat
  shop : String
  subscriptionContractId : String
  customerId : String
  customerEmail : String
  customerName : String
  orderNumber : Int
  giftToken : String
  status : String
  emailSentAt : Option Int
  selectedAt : Option Int
  appliedAt : Option Int
  expiresAt : Int
  createdAt : Int
deriving DecidableEq, Repr

/-- One `SyncedSubscriber` row (the fields the evaluators read). -/
structure SyncedSubscriber where
  shop : String
  contractId : String
  customerId : String
  customerEmail : Option String
  customerFirstName : Option String
  customerLastName : Option String
  totalOrdersDelivered : Int
deriving DecidableEq, Repr

/-- One `GiftSettings` row. -/
structure GiftSettingsRec where
  shop : String
  enabled : Bool
  triggerOrderNumbers : String
  maxGiftProducts : Int
  giftExpiryDays : Int
  emailDelayDays : Int
  eligibleProductIds : Option String
deriving DecidableEq, Repr

/-- One `GiftSelection` row. -/
structure GiftSelection where
  id : Nat
  giftEligibilityId : Nat
  variantId : String
  productTitle : String
  quantity : Int
  addedToSubscription : Bool
  appstleLineId : Option String
deriving DecidableEq, Repr

/-- The unique key `shop_subscriptionContractId_orderNumber` of `GiftEligibility`. -/
def keyOf (e : GiftEligibility) : String × String × Int :=
  (e.shop, e.subscriptionContractId, e.orderNumber)

/-- `prisma.giftEligibility.findUnique({ where: { shop_subscriptionContractId_orderNumber }})`
returns a row, modelled as a boolean existence check on the key. -/
def hasKey (db : List GiftEligibility) (shop cid : String) (n : Int) : Bool :=
  db.any (fun e => e.shop == shop && e.subscriptionContractId == cid && e.orderNumber == n)

/-- `prisma.giftEligibility.findUnique({ where: { giftToken }})`. -/
def findByToken (db : List GiftEligibility) (token : String) : Option GiftEligibility :=
  db.find? (fun e => e.giftToken == token)

/-- The row with a given id (ids are the Prisma primary keys). -/
def rowById (db : List GiftEligibility) (i : Nat) : Option GiftEligibility :=
  db.find? (fun e => e.id == i)

/-! ## Milestone evaluators

`runCronJob` Step 2 (appstle.server.ts, in-process cron) and the admin
`processEligible` action (app.gifts.tsx) run the same loop: for each synced
subscriber and each parsed trigger, when `totalOrdersDelivered >= trigger`
and no row with the `(shop, contractId, trigger)` key exists, create one
`pending` eligibility.  The /api/cron action's Step 2 instead tests
`triggerNumbers.includes(subscriber.totalOrdersDelivered)` and creates the
row at `orderNumber = totalOrdersDelivered`.  Token generation
(`randomBytes(32).toString("hex")`) is abstracted as `tokenGen` applied to
the next fresh row id. -/

structure EvalState where
  db : List GiftEligibility
  created : Nat
  nextId : Nat
deriving Repr

/-- The `prisma.giftEligibility.create` payload of the evaluation paths. -/
def mkEligibility (shop : String) (tokenGen : Nat → String) (now expiryDays : Int)
    (sub : SyncedSubscriber) (trigger : Int) (idv : Nat) : GiftEligibility :=
  { id := idv
    shop := shop
    subscriptionContractId := sub.contractId
    customerId := sub.customerId
    customerEmail := sub.customerEmail.getD ""
    customerName := String.mk (trimChars (((sub.customerFirstName.getD "") ++ " " ++
      (sub.customerLastName.getD "")).data))
    orderNumber := trigger
    giftToken := tokenGen idv
    status := "pending"
    emailSentAt := none
    selectedAt := none
    appliedAt := none
    expiresAt := now + expiryDays
    createdAt := now }

/-- `findUnique` on the milestone key, then `create` when absent. -/
def createIfMissing (shop : String) (tokenGen : Nat → String) (now expiryDays : Int)
    (sub : SyncedSubscriber) (trigger : Int) (st : EvalState) : EvalState :=
  if hasKey st.db shop sub.contractId trigger then st
  else
    { db := st.db ++ [mkEligibility shop tokenGen now expiryDays sub trigger st.nextId]
      created := st.created + 1
      nextId := st.nextId + 1 }

/-- Inner trigger loop of `runCronJob` Step 2 / `processEligible`
(`if (subscriber.totalOrdersDelivered >= trigger)`). -/
def processSubscriberGe (shop : String) (tokenGen : Nat → String) (now expiryDays : Int)
    (triggers : List Int) (sub : SyncedSubscriber) (st : EvalState) : EvalState :=
  triggers.foldl
    (fun st trigger =>
      if sub.totalOrdersDelivered ≥ trigger then
        createIfMissing shop tokenGen now expiryDays sub trigger st
      else st)
    st

/-- `runCronJob` Step 2 and the admin `processEligible` action: the
`>=`-policy evaluation pass over all synced subscribers. -/
def createEligibilitiesGe (shop : String) (tokenGen : Nat → String) (now expiryDays : Int)
    (triggers : List Int) (subs : List SyncedSubscriber) (st : EvalState) : EvalState :=
  subs.foldl (fun st sub => processSubscriberGe shop tokenGen now expiryDays triggers sub st) st

/-- Subscriber step of the /api/cron action's Step 2:
`if (triggerNumbers.includes(subscriber.totalOrdersDelivered))`. -/
def processSubscriberExact (shop : String) (tokenGen : Nat → String) (now expiryDays : Int)
    (triggers : List Int) (sub : SyncedSubscriber) (st : EvalState) : EvalState :=
  if triggers.contains sub.totalOrdersDelivered then
    createIfMissing shop tokenGen now expiryDays sub sub.totalOrdersDelivered st
  else st

/-- The /api/cron action's Step 2: the exact-match evaluation pass. -/
def createEligibilitiesExact (shop : String) (tokenGen : Nat → String) (now expiryDays : Int)
    (triggers : List Int) (subs : List SyncedSubscriber) (st : EvalState) : EvalState :=
  subs.foldl (fun st sub => processSubscriberExact shop tokenGen now expiryDays triggers sub st) st

/-! ## Email dispatch (runCronJob Step 3, /api/cron Step 3, admin sendEmails)

All three paths run the same logic: select the rows matching the dispatch
predicate, bulk-update them all to `email_sent` with a timestamp, then try
each send; a failed or throwing send marks that row `email_failed`. -/

/-- Outcome of `service.sendMagicLinkEmail` for one recipient: the result
object reported success, reported failure, or the call threw. -/
inductive SendOutcome where
  | success
  | fail
  | thrown
deriving DecidableEq, Repr

/-- The dispatch selection predicate (`findMany` where clause):
`shop, status: "pending", emailSentAt: null, createdAt <= now - delay, expiresAt > now`. -/
def dispatchPredicate (shop : String) (now delay : Int) (e : GiftEligibility) : Bool :=
  e.shop == shop && e.status == "pending" && e.emailSentAt == none &&
    decide (e.createdAt ≤ now - delay) && decide (now < e.expiresAt)

/-- Select the matching rows and bulk-claim them (`updateMany` setting
`status: "email_sent", emailSentAt: now`); returns the updated table and
the selected rows. -/
def claimPending (shop : String) (now delay : Int) (db : List GiftEligibility) :
    List GiftEligibility × List GiftEligibility :=
  let selected := db.filter (dispatchPredicate shop now delay)
  let ids := selected.map (fun e => e.id)
  let db1 := db.map (fun e =>
    if ids.contains e.id then { e with status := "email_sent", emailSentAt := some now } else e)
  (db1, selected)

/-- `prisma.giftEligibility.update({ where: { id }, data: { status: "email_failed" }})`. -/
def markEmailFailed (db : List GiftEligibility) (i : Nat) : List GiftEligibility :=
  db.map (fun e => if e.id == i then { e with status := "email_failed" } else e)

/-- The per-row send loop: a reported failure or a thrown error marks the row
`email_failed`; a success leaves the claimed row as `email_sent`. -/
def sendPhase (outcome : Nat → SendOutcome) (selected : List GiftEligibility)
    (db : List GiftEligibility) : List GiftEligibility :=
  selected.foldl
    (fun db e =>
      match outcome e.id with
      | SendOutcome.success => db
      | SendOutcome.fail => markEmailFailed db e.id
      | SendOutcome.thrown => markEmailFailed db e.id)
    db

/-- One full dispatch invocation: claim-then-act.  Returns the final table
and the list of rows whose email send was attempted. -/
def runDispatch (shop : String) (now delay : Int) (outcome : Nat → SendOutcome)
    (db : List GiftEligibility) : List GiftEligibility × List GiftEligibility :=
  let pr := claimPending shop now delay db
  (sendPhase outcome pr.2 pr.1, pr.2)

/-! ## Order-paid webhook (webhooks.tsx handleOrderPaid)

The completed-order count fetched through `service.getPastOrders` and the
outcome of the immediate `sendMagicLinkEmail` call are inputs.  The payload
customer id is a JS number, the email a string; both are guarded by JS
truthiness. -/

/-- JS truthiness of an optional number. -/
def intTruthy (o : Option Int) : Bool :=
  match o with
  | none => false
  | some n => !(n == 0)

/-- `[first_name, last_name].filter(Boolean).join(" ")`. -/
def joinNameParts (firstName lastName : Option String) : String :=
  String.intercalate " " (([firstName, lastName].filterMap id).filter (fun s => !s.isEmpty))

/-- `subscriber?.contractId || `order-id`` after the `findFirst` subscriber lookup. -/
def webhookContractId (shop : String) (customerId : Option Int) (orderId : String)
    (subs : List SyncedSubscriber) : String :=
  match subs.find? (fun s => s.shop == shop && s.customerId == toString (customerId.getD 0)) with
  | some s => if s.contractId.isEmpty then "order-" ++ orderId else s.contractId
  | none => "order-" ++ orderId

/-- The `prisma.giftEligibility.create` payload of the webhook path. -/
def webhookElig (shop : String) (customerId : Option Int) (customerEmail : Option String)
    (firstName lastName : Option String) (subscriptionContractId : String)
    (completedOrders : Int) (newId : Nat) (token : String) (now expiryDays : Int) :
    GiftEligibility :=
  { id := newId
    shop := shop
    subscriptionContractId := subscriptionContractId
    customerId := toString (customerId.getD 0)
    customerEmail := customerEmail.getD ""
    customerName := joinNameParts firstName lastName
    orderNumber := completedOrders
    giftToken := token
    status := "pending"
    emailSentAt := none
    selectedAt := none
    appliedAt := none
    expiresAt := now + expiryDays
    createdAt := now }

def handleOrderPaid (shop : String) (customerId : Option Int) (customerEmail : Option String)
    (firstName lastName : Option String) (orderId : String)
    (giftSettings : Option GiftSettingsRec) (hasApiKey : Bool)
    (completedOrders : Int) (subs : List SyncedSubscriber)
    (newId : Nat) (token : String) (now : Int) (emailOutcome : SendOutcome)
    (db : List GiftEligibility) : List GiftEligibility :=
  if !intTruthy customerId || !strTruthy customerEmail then db
  else
    match giftSettings with
    | none => db
    | some gs =>
      if !gs.enabled then db
      else
        let triggerNumbers := parseTriggerNumbers gs.triggerOrderNumbers
        if triggerNumbers.isEmpty then db
        else if !hasApiKey then db
        else if !(triggerNumbers.contains completedOrders) then db
        else
          let subscriptionContractId := webhookContractId shop customerId orderId subs
          if hasKey db shop subscriptionContractId completedOrders then db
          else
            let e : GiftEligibility := webhookElig shop customerId customerEmail
              firstName lastName subscriptionContractId completedOrders newId token now
              gs.giftExpiryDays
            let db1 := db ++ [e]
            if gs.emailDelayDays == 0 then
              match emailOutcome with
              | SendOutcome.success =>
                  db1.map (fun r => if r.id == e.id then
                    { r with status := "email_sent", emailSentAt := some now } else r)
              | SendOutcome.fail => db1
              | SendOutcome.thrown => db1
            else db1

/-! ## Token verification endpoint (api.gift.verify.tsx loader) -/

inductive VerifyResult where
  | invalid (message : String)
  | valid (token : String) (customerName : String) (orderNumber : Int)
      (maxGifts : Int) (eligibleProductIds : Option (List String)) (expiresAt : Int)
deriving DecidableEq, Repr

/-- `settings?.maxGiftProducts || 3` (JS: 0 and missing both fall back to 3). -/
def maxGiftsOf (settings : Option GiftSettingsRec) : Int :=
  match settings with
  | some s => if s.maxGiftProducts == 0 then 3 else s.maxGiftProducts
  | none => 3

/-- `settings?.eligibleProductIds` split on "," with trimmed entries, when truthy. -/
def parseEligibleProductIds (settings : Option GiftSettingsRec) : Option (List String) :=
  match settings with
  | some s =>
    match s.eligibleProductIds with
    | some ids =>
      if ids.isEmpty then none
      else some ((splitCharsOn ',' ids.data).map (fun cs => String.mk (trimChars cs)))
    | none => none
  | none => none

/-- `findFirst` with `orderBy: { createdAt: "desc" }`. -/
def findLatestCreated (p : GiftEligibility → Bool) (db : List GiftEligibility) :
    Option GiftEligibility :=
  (db.filter p).foldl
    (fun acc e =>
      match acc with
      | none => some e
      | some b => if e.createdAt > b.createdAt then some e else some b)
    none

/-- The verify loader.  It performs no database write, so the table is
returned unchanged alongside the response. -/
def giftVerifyLoader (tokenParam emailParam : Option String) (now : Int)
    (db : List GiftEligibility) (settings : Option GiftSettingsRec) :
    VerifyResult × List GiftEligibility :=
  if !strTruthy tokenParam && !strTruthy emailParam then
    (VerifyResult.invalid "No token or email provided", db)
  else
    let elig :=
      if strTruthy tokenParam then findByToken db (tokenParam.getD "")
      else
        findLatestCreated
          (fun e =>
            e.customerEmail == emailParam.getD "" &&
            (e.status == "pending" || e.status == "email_sent") &&
            decide (now < e.expiresAt))
          db
    match elig with
    | none =>
      if strTruthy emailParam then
        match findLatestCreated
            (fun e =>
              e.customerEmail == emailParam.getD "" &&
              (e.status == "selected" || e.status == "applied"))
            db with
        | some _ =>
          (VerifyResult.invalid "You have already selected your free gifts for this milestone!", db)
        | none =>
          (VerifyResult.invalid
            "No active gift found for this email. You may not be eligible yet, or your gift has expired.",
            db)
      else (VerifyResult.invalid "Invalid gift token", db)
    | some e =>
      if decide (now > e.expiresAt) then
        (VerifyResult.invalid "This gift link has expired", db)
      else if e.status == "selected" || e.status == "applied" then
        (VerifyResult.invalid "You have already selected your free gifts", db)
      else
        (VerifyResult.valid e.giftToken e.customerName e.orderNumber (maxGiftsOf settings)
          (parseEligibleProductIds settings) e.expiresAt, db)

/-! ## Gift selection endpoint (api.gift.select.tsx action)

The Appstle side of `addGiftProducts` is external: `applyOne i` is the
result object of the `addGiftProduct` call for the i-th submitted product. -/

/-- One entry of the request body's `products` array. -/
structure GiftProduct where
  variantId : String
  title : String
  variantHandle : Option String
  productHandle : Option String
deriving DecidableEq, Repr

/-- Result object of one `addGiftProduct` call. -/
structure AddResult where
  success : Bool
  lineId : Option String
  error : Option String
deriving DecidableEq, Repr

/-- `addGiftProducts` (appstle.server.ts): one sequential call per product,
overall `success` iff every per-product result succeeded. -/
def addGiftProducts (applyOne : Nat → AddResult) (products : List GiftProduct) :
    Bool × List AddResult :=
  let results := (List.range products.length).map applyOne
  (results.all (fun r => r.success), results)

inductive SelectResponse where
  | failure (error : String)
  | mixedSuccess (message : String)
  | fullSuccess (message : String)
deriving DecidableEq, Repr

/-- `.filter(r => !r.success).map(r => r.error).join(", ")` (join renders
`undefined` as the empty string). -/
def joinErrors (results : List AddResult) : String :=
  String.intercalate ", " ((results.filter (fun r => !r.success)).map (fun r => r.error.getD ""))

structure SelectOutcome where
  response : SelectResponse
  dbAfter : List GiftEligibility
  selectionsAfter : List GiftSelection
  upstreamAttempts : List GiftProduct
deriving Repr

def giftSelectAction (token : Option String) (products : List GiftProduct)
    (db : List GiftEligibility) (selections : List GiftSelection)
    (settings : Option GiftSettingsRec) (apiKeyConfigured : Bool)
    (applyOne : Nat → AddResult) (now : Int) (selIdStart : Nat) : SelectOutcome :=
  if !strTruthy token || products.isEmpty then
    { response := SelectResponse.failure "Invalid request - missing token or products"
      dbAfter := db, selectionsAfter := selections, upstreamAttempts := [] }
  else
    match findByToken db (token.getD "") with
    | none =>
      { response := SelectResponse.failure "Invalid gift token. Please use the link from your email."
        dbAfter := db, selectionsAfter := selections, upstreamAttempts := [] }
    | some elig =>
      if decide (now > elig.expiresAt) then
        { response := SelectResponse.failure "This gift link has expired"
          dbAfter := db, selectionsAfter := selections, upstreamAttempts := [] }
      else if elig.status == "selected" || elig.status == "applied" then
        { response := SelectResponse.failure "You have already selected your free gifts"
          dbAfter := db, selectionsAfter := selections, upstreamAttempts := [] }
      else
        let maxGifts := maxGiftsOf settings
        if decide ((products.length : Int) > maxGifts) then
          { response := SelectResponse.failure
              ("You can only select up to " ++ toString maxGifts ++ " products")
            dbAfter := db, selectionsAfter := selections, upstreamAttempts := [] }
        else if !apiKeyConfigured then
          { response := SelectResponse.failure "Gift system is not configured. Please contact support."
            dbAfter := db, selectionsAfter := selections, upstreamAttempts := [] }
        else
          let newSels := products.enum.map (fun pr =>
            { id := selIdStart + pr.1
              giftEligibilityId := elig.id
              variantId := pr.2.variantId
              productTitle := pr.2.title
              quantity := 1
              addedToSubscription := false
              appstleLineId := none : GiftSelection })
          let ar := addGiftProducts applyOne products
          let selsUpd := List.zipWith
            (fun (s : GiftSelection) (r : AddResult) =>
              if r.success && strTruthy r.lineId then
                { s with addedToSubscription := true, appstleLineId := r.lineId }
              else s)
            newSels ar.2
          let db1 := db.map (fun e =>
            if e.id == elig.id then
              { e with status := if ar.1 then "applied" else "selected"
                       selectedAt := some now
                       appliedAt := if ar.1 then some now else none }
            else e)
          let successCount := (ar.2.filter (fun r => r.success)).length
          let errs := joinErrors ar.2
          let response :=
            if ar.1 then
              SelectResponse.fullSuccess "Your free gifts have been added to your next order!"
            else if successCount == 0 then
              SelectResponse.failure ("Failed to add products to your subscription. Error: " ++ errs)
            else
              SelectResponse.mixedSuccess (toString successCount ++ " of " ++
                toString products.length ++ " products were added. Some failed: " ++ errs)
          { response := response
            dbAfter := db1
            selectionsAfter := selections ++ selsUpd
            upstreamAttempts := products }

/-! ## Paginated contract listing (appstle.server.ts getAllSubscriptionContracts)

`fetch page` is the normalized `SubscriptionContractsResponse` for that page
(records plus the computed `hasMore` flag); its contents are arbitrary,
modelling any upstream behavior. -/

structure ContractsPage (α : Type) where
  subscriptionContracts : List α
  hasMore : Bool

/-- The `while (hasMore)` loop body: accumulate the page, increment, break
unconditionally once the counter exceeds 1000, otherwise continue while
`hasMore`. -/
def getAllLoop {α : Type} (fetch : Nat → ContractsPage α) (page : Nat) (acc : List α) :
    List α :=
  if 1000 < page + 1 then acc ++ (fetch page).subscriptionContracts
  else if (fetch page).hasMore then
    getAllLoop fetch (page + 1) (acc ++ (fetch page).subscriptionContracts)
  else acc ++ (fetch page).subscriptionContracts
termination_by 1001 - page

/-- `getAllSubscriptionContracts`: starts at page 0 with an empty accumulator
(`hasMore` initialized to true, so the first iteration always runs). -/
def getAllSubscriptionContracts {α : Type} (fetch : Nat → ContractsPage α) : List α :=
  getAllLoop fetch 0 []

/-- The concatenated records of `count` consecutive pages starting at `page`. -/
def fetchedPages {α : Type} (fetch : Nat → ContractsPage α) : Nat → Nat → List α
  | _, 0 => []
  | page, count + 1 => (fetch page).subscriptionContracts ++ fetchedPages fetch (page + 1) count

/-- The customer-intent fields of a GiftSelection row: owner eligibility,
variant, title, quantity (everything except the upstream-result fields). -/
def selCore (s : GiftSelection) : Nat × String × String × Int :=
  (s.giftEligibilityId, s.variantId, s.productTitle, s.quantity)

/-! ## Sample data for concrete instantiations -/

/-- A pending eligibility row. -/
def sampleElig : GiftEligibility :=
  { id := 1, shop := "s", subscriptionContractId := "c1", customerId := "u1"
    customerEmail := "a@b.c", customerName := "Ann", orderNumber := 3
    giftToken := "tok1", status := "pending", emailSentAt := none
    selectedAt := none, appliedAt := none, expiresAt := 100, createdAt := 0 }

/-- A second pending eligibility row with a distinct id, key and token. -/
def sampleElig2 : GiftEligibility :=
  { id := 2, shop := "s", subscriptionContractId := "c2", customerId := "u2"
    customerEmail := "d@b.c", customerName := "Bob", orderNumber := 5
    giftToken := "tok2", status := "pending", emailSentAt := none
    selectedAt := none, appliedAt := none, expiresAt := 100, createdAt := 0 }

/-- A synced subscriber with five delivered orders. -/
def sampleSub : SyncedSubscriber :=
  { shop := "s", contractId := "c1", customerId := "u1"
    customerEmail := some "a@b.c", customerFirstName := some "Ann"
    customerLastName := some "Lee", totalOrdersDelivered := 5 }

/-- A deterministic stand-in for `randomBytes(32).toString("hex")`. -/
def sampleTokenGen : Nat → String := fun _ => "t"

/-- A submitted product choice. -/
def sampleProduct : GiftProduct :=
  { variantId := "v1", title := "P1", variantHandle := none, productHandle := none }

/-- Gift settings with thresholds "3,5,10". -/
def sampleSettings : GiftSettingsRec :=
  { shop := "s", enabled := true, triggerOrderNumbers := "3,5,10"
    maxGiftProducts := 3, giftExpiryDays := 14, emailDelayDays := 0
    eligibleProductIds := none }

/-! ## Helper lemmas -/

theorem rowById_map (f : GiftEligibility → GiftEligibility)
    (hf : ∀ e, (f e).id = e.id) (db : List GiftEligibility) (i : Nat) :
    rowById (db.map f) i = (rowById db i).map f := by
  unfold rowById
  rw [List.find?_map]
  have hp : ((fun e : GiftEligibility => e.id == i) ∘ f) =
      (fun e : GiftEligibility => e.id == i) := by
    funext e
    simp [Function.comp, hf]
  rw [hp]

theorem eq_of_mem_id_nodup {db : List GiftEligibility} {a b : GiftEligibility}
    (hnd : (db.map (fun e => e.id)).Nodup) (ha : a ∈ db) (hb : b ∈ db)
    (hid : a.id = b.id) : a = b := by
  induction db with
  | nil => cases ha
  | cons x tl ih =>
    simp only [List.map_cons, List.nodup_cons] at hnd
    rcases List.mem_cons.mp ha with rfl | ha' <;>
      rcases List.mem_cons.mp hb with rfl | hb'
    · rfl
    · exact absurd (hid ▸ List.mem_map_of_mem (fun e => e.id) hb') hnd.1
    · exact absurd (hid ▸ List.mem_map_of_mem (fun e => e.id) ha') hnd.1
    · exact ih hnd.2 ha' hb'

theorem rowById_of_mem {db : List GiftEligibility} {e : GiftEligibility}
    (hnd : (db.map (fun e => e.id)).Nodup) (he : e ∈ db) :
    rowById db e.id = some e := by
  induction db with
  | nil => cases he
  | cons x tl ih =>
    simp only [List.map_cons, List.nodup_cons] at hnd
    rcases List.mem_cons.mp he with rfl | he'
    · simp [rowById, List.find?]
    · have hne : x.id ≠ e.id := by
        intro h
        exact hnd.1 (h ▸ List.mem_map_of_mem (fun e => e.id) he')
      simp only [rowById, List.find?]
      rw [show (x.id == e.id) = false from beq_eq_false_iff_ne.mpr hne]
      exact ih hnd.2 he'

theorem mem_of_rowById {db : List GiftEligibility} {r : GiftEligibility} {i : Nat}
    (h : rowById db i = some r) : r ∈ db ∧ r.id = i := by
  refine ⟨List.mem_of_find?_eq_some h, ?_⟩
  have := List.find?_some h
  exact beq_iff_eq.mp this

theorem ids_map_of_preserve (f : GiftEligibility → GiftEligibility)
    (hf : ∀ e, (f e).id = e.id) (db : List GiftEligibility) :
    (db.map f).map (fun e => e.id) = db.map (fun e => e.id) := by
  rw [List.map_map]
  exact List.map_congr_left (fun e _ => hf e)

theorem ids_markEmailFailed (db : List GiftEligibility) (j : Nat) :
    (markEmailFailed db j).map (fun e => e.id) = db.map (fun e => e.id) := by
  apply ids_map_of_preserve
  intro e
  dsimp only
  split <;> rfl

theorem sendPhase_cons (outcome : Nat → SendOutcome) (a : GiftEligibility)
    (tl db : List GiftEligibility) :
    sendPhase outcome (a :: tl) db =
      sendPhase outcome tl
        (match outcome a.id with
         | SendOutcome.success => db
         | SendOutcome.fail => markEmailFailed db a.id
         | SendOutcome.thrown => markEmailFailed db a.id) := rfl

theorem ids_sendPhase (outcome : Nat → SendOutcome) (sel db : List GiftEligibility) :
    (sendPhase outcome sel db).map (fun e => e.id) = db.map (fun e => e.id) := by
  induction sel generalizing db with
  | nil => rfl
  | cons a tl ih =>
    rw [sendPhase_cons]
    cases outcome a.id
    · exact ih db
    · rw [ih (markEmailFailed db a.id), ids_markEmailFailed]
    · rw [ih (markEmailFailed db a.id), ids_markEmailFailed]

theorem ids_claimPending (shop : String) (now delay : Int) (db : List GiftEligibility) :
    ((claimPending shop now delay db).1).map (fun e => e.id) = db.map (fun e => e.id) := by
  apply ids_map_of_preserve
  intro e
  dsimp only
  split <;> rfl

theorem rowById_markEmailFailed_eq (db : List GiftEligibility) (i : Nat) :
    rowById (markEmailFailed db i) i =
      (rowById db i).map (fun r => { r with status := "email_failed" }) := by
  unfold markEmailFailed
  rw [rowById_map]
  · cases h : rowById db i with
    | none => rfl
    | some r =>
      have hr := (mem_of_rowById h).2
      simp [hr]
  · intro e
    split <;> rfl

theorem rowById_markEmailFailed_ne (db : List GiftEligibility) (j i : Nat) (h : i ≠ j) :
    rowById (markEmailFailed db j) i = rowById db i := by
  unfold markEmailFailed
  rw [rowById_map]
  · cases hx : rowById db i with
    | none => rfl
    | some r =>
      have hr := (mem_of_rowById hx).2
      have hb : ¬ ((r.id == j) = true) := by
        simp only [beq_iff_eq]
        rw [hr]
        exact h
      show some _ = some r
      beta_reduce
      rw [if_neg hb]
  · intro e
    split <;> rfl

theorem rowById_sendPhase_not_mem (outcome : Nat → SendOutcome)
    (sel db : List GiftEligibility) (i : Nat) (hi : i ∉ sel.map (fun e => e.id)) :
    rowById (sendPhase outcome sel db) i = rowById db i := by
  induction sel generalizing db with
  | nil => rfl
  | cons a tl ih =>
    simp only [List.map_cons, List.mem_cons, not_or] at hi
    rw [sendPhase_cons]
    cases outcome a.id
    · exact ih db (by simpa using hi.2)
    · rw [ih (markEmailFailed db a.id) (by simpa using hi.2)]
      exact rowById_markEmailFailed_ne db a.id i hi.1
    · rw [ih (markEmailFailed db a.id) (by simpa using hi.2)]
      exact rowById_markEmailFailed_ne db a.id i hi.1

theorem rowById_sendPhase_or (outcome : Nat → SendOutcome)
    (sel db : List GiftEligibility) (i : Nat) :
    rowById (sendPhase outcome sel db) i = rowById db i ∨
    rowById (sendPhase outcome sel db) i =
      (rowById db i).map (fun r => { r with status := "email_failed" }) := by
  induction sel generalizing db with
  | nil => exact Or.inl rfl
  | cons a tl ih =>
    rw [sendPhase_cons]
    have step : rowById
        (match outcome a.id with
         | SendOutcome.success => db
         | SendOutcome.fail => markEmailFailed db a.id
         | SendOutcome.thrown => markEmailFailed db a.id) i = rowById db i ∨
        rowById
        (match outcome a.id with
         | SendOutcome.success => db
         | SendOutcome.fail => markEmailFailed db a.id
         | SendOutcome.thrown => markEmailFailed db a.id) i =
          (rowById db i).map (fun r => { r with status := "email_failed" }) := by
      cases outcome a.id
      · exact Or.inl rfl
      · by_cases hij : i = a.id
        · subst hij
          exact Or.inr (rowById_markEmailFailed_eq db a.id)
        · exact Or.inl (rowById_markEmailFailed_ne db a.id i hij)
      · by_cases hij : i = a.id
        · subst hij
          exact Or.inr (rowById_markEmailFailed_eq db a.id)
        · exact Or.inl (rowById_markEmailFailed_ne db a.id i hij)
    rcases ih (match outcome a.id with
         | SendOutcome.success => db
         | SendOutcome.fail => markEmailFailed db a.id
         | SendOutcome.thrown => markEmailFailed db a.id) with htl | htl <;>
      rcases step with hs | hs <;> rw [htl, hs]
    · exact Or.inl rfl
    · exact Or.inr rfl
    · exact Or.inr rfl
    · right
      rw [Option.map_map]
      rfl

theorem rowById_sendPhase_failed (outcome : Nat → SendOutcome)
    {sel : List GiftEligibility} (db : List GiftEligibility) {e : GiftEligibility}
    (hnd : (sel.map (fun e => e.id)).Nodup) (he : e ∈ sel)
    (hfail : outcome e.id ≠ SendOutcome.success) :
    rowById (sendPhase outcome sel db) e.id =
      (rowById db e.id).map (fun r => { r with status := "email_failed" }) := by
  induction sel generalizing db with
  | nil => cases he
  | cons a tl ih =>
    simp only [List.map_cons, List.nodup_cons] at hnd
    rw [sendPhase_cons]
    rcases List.mem_cons.mp he with rfl | he'
    · have hnot : e.id ∉ tl.map (fun e => e.id) := hnd.1
      rw [rowById_sendPhase_not_mem outcome tl _ e.id hnot]
      cases houtcome : outcome e.id
      · exact absurd houtcome hfail
      · exact rowById_markEmailFailed_eq db e.id
      · exact rowById_markEmailFailed_eq db e.id
    · have hne : e.id ≠ a.id := by
        intro hcontra
        exact hnd.1 (hcontra ▸ List.mem_map_of_mem (fun e => e.id) he')
      cases outcome a.id
      · exact ih db hnd.2 he'
      · rw [ih (markEmailFailed db a.id) hnd.2 he',
          rowById_markEmailFailed_ne db a.id e.id hne]
      · rw [ih (markEmailFailed db a.id) hnd.2 he',
          rowById_markEmailFailed_ne db a.id e.id hne]

theorem rowById_claimPending_mem (shop : String) (now delay : Int)
    {db : List GiftEligibility} {e : GiftEligibility}
    (hnd : (db.map (fun e => e.id)).Nodup)
    (he : e ∈ (claimPending shop now delay db).2) :
    rowById (claimPending shop now delay db).1 e.id =
      some { e with status := "email_sent", emailSentAt := some now } := by
  have hsel : e ∈ db.filter (dispatchPredicate shop now delay) := he
  have hedb : e ∈ db := List.mem_of_mem_filter hsel
  have hcontains :
      ((db.filter (dispatchPredicate shop now delay)).map (fun e => e.id)).contains e.id = true := by
    have : e.id ∈ (db.filter (dispatchPredicate shop now delay)).map (fun e => e.id) :=
      List.mem_map_of_mem (fun e => e.id) hsel
    exact List.elem_eq_true_of_mem this
  show rowById (db.map _) e.id = _
  rw [rowById_map _ (fun x => by split <;> rfl) db e.id,
    rowById_of_mem hnd hedb]
  show some _ = _
  beta_reduce
  rw [if_pos hcontains]

theorem claimPending_snd (shop : String) (now delay : Int) (db : List GiftEligibility) :
    (claimPending shop now delay db).2 = db.filter (dispatchPredicate shop now delay) := rfl

theorem status_of_claimed (shop : String) (now delay : Int) (outcome : Nat → SendOutcome)
    (db : List GiftEligibility) (hnd : (db.map (fun e => e.id)).Nodup)
    {e r : GiftEligibility}
    (he : e ∈ (claimPending shop now delay db).2)
    (hr : rowById (runDispatch shop now delay outcome db).1 e.id = some r) :
    (r.status = "email_sent" ∨ r.status = "email_failed") ∧ r.emailSentAt = some now := by
  have hupd := rowById_claimPending_mem shop now delay hnd he
  have hor := rowById_sendPhase_or outcome (claimPending shop now delay db).2
    (claimPending shop now delay db).1 e.id
  have hrd : (runDispatch shop now delay outcome db).1 =
      sendPhase outcome (claimPending shop now delay db).2 (claimPending shop now delay db).1 := rfl
  rw [hrd] at hr
  rcases hor with hcase | hcase <;> rw [hcase, hupd] at hr
  · cases hr
    exact ⟨Or.inl rfl, rfl⟩
  · simp only [Option.map_some'] at hr
    cases hr
    exact ⟨Or.inr rfl, rfl⟩

theorem not_pending_of_claimed (shop : String) (now delay now2 delay2 : Int)
    (outcome : Nat → SendOutcome) (db : List GiftEligibility)
    (hnd : (db.map (fun e => e.id)).Nodup) {e r : GiftEligibility}
    (he : e ∈ (runDispatch shop now delay outcome db).2)
    (hr : r ∈ (claimPending shop now2 delay2 (runDispatch shop now delay outcome db).1).2) :
    r.id ≠ e.id := by
  intro hid
  have hndF : ((runDispatch shop now delay outcome db).1.map (fun e => e.id)).Nodup := by
    have h1 : (runDispatch shop now delay outcome db).1.map (fun e => e.id) =
        db.map (fun e => e.id) := by
      show (sendPhase outcome _ _).map _ = _
      rw [ids_sendPhase, ids_claimPending]
    rw [h1]
    exact hnd
  have hrmem : r ∈ (runDispatch shop now delay outcome db).1 :=
    List.mem_of_mem_filter hr
  have hrrow : rowById (runDispatch shop now delay outcome db).1 r.id = some r :=
    rowById_of_mem hndF hrmem
  rw [hid] at hrrow
  have hstat := (status_of_claimed shop now delay outcome db hnd he hrrow).1
  have hpred : dispatchPredicate shop now2 delay2 r = true := List.of_mem_filter hr
  have hpending : r.status = "pending" := by
    simp only [dispatchPredicate, Bool.and_eq_true, beq_iff_eq] at hpred
    exact hpred.1.1.1.2
  rcases hstat with hs | hs <;> rw [hs] at hpending <;> revert hpending <;> decide

/-- Claim C1: in every email-dispatch invocation, all selected rows are
bulk-transitioned to `email_sent` with a stamped `emailSentAt` before any
individual send runs; a later dispatch invocation on the resulting table
selects none of those rows, so across the two invocations each eligibility
id is emailed at most once. -/
theorem dispatch_claim_then_act
    (shop : String) (now delay now2 delay2 : Int) (outcome : Nat → SendOutcome)
    (db : List GiftEligibility)
    (hnd : (db.map (fun e => e.id)).Nodup) :
    (∀ e ∈ (claimPending shop now delay db).2,
      ∀ e1 ∈ (claimPending shop now delay db).1, e1.id = e.id →
        e1.status = "email_sent" ∧ e1.emailSentAt = some now) ∧
    (∀ e ∈ (runDispatch shop now delay outcome db).2,
      ∀ r ∈ (claimPending shop now2 delay2 (runDispatch shop now delay outcome db).1).2,
        r.id ≠ e.id) ∧
    ((runDispatch shop now delay outcome db).2.map (fun e => e.id) ++
      (claimPending shop now2 delay2 (runDispatch shop now delay outcome db).1).2.map
        (fun e => e.id)).Nodup := by
  have hnd1 : ((claimPending shop now delay db).1.map (fun e => e.id)).Nodup := by
    rw [ids_claimPending]
    exact hnd
  have hndF : ((runDispatch shop now delay outcome db).1.map (fun e => e.id)).Nodup := by
    have h1 : (runDispatch shop now delay outcome db).1.map (fun e => e.id) =
        db.map (fun e => e.id) := by
      show (sendPhase outcome _ _).map _ = _
      rw [ids_sendPhase, ids_claimPending]
    rw [h1]
    exact hnd
  refine ⟨?_, ?_, ?_⟩
  · intro e he e1 he1 hid
    have hupd := rowById_claimPending_mem shop now delay hnd he
    have he1row := rowById_of_mem hnd1 he1
    rw [hid] at he1row
    have heq : some e1 = some { e with status := "email_sent", emailSentAt := some now } :=
      he1row.symm.trans hupd
    cases heq
    exact ⟨rfl, rfl⟩
  · intro e he r hr
    exact not_pending_of_claimed shop now delay now2 delay2 outcome db hnd he hr
  · rw [List.nodup_append]
    refine ⟨?_, ?_, ?_⟩
    · have hsub : List.Sublist ((claimPending shop now delay db).2.map (fun e => e.id))
          (db.map (fun e => e.id)) :=
        List.Sublist.map (fun e => e.id) (List.filter_sublist db)
      exact hnd.sublist hsub
    · rw [claimPending_snd]
      have hsub : List.Sublist
          (((runDispatch shop now delay outcome db).1.filter
              (dispatchPredicate shop now2 delay2)).map (fun e => e.id))
          ((runDispatch shop now delay outcome db).1.map (fun e => e.id)) :=
        List.Sublist.map (fun e => e.id)
          (List.filter_sublist (runDispatch shop now delay outcome db).1)
      exact hndF.sublist hsub
    · intro a ha hb
      obtain ⟨e, he, rfl⟩ := List.mem_map.mp ha
      obtain ⟨r, hr, hrid⟩ := List.mem_map.mp hb
      exact not_pending_of_claimed shop now delay now2 delay2 outcome db hnd he hr hrid

/-- Witness for the dispatch claim-then-act theorem at a concrete table. -/
theorem dispatch_claim_then_act_witness :
    (([sampleElig].map (fun e => e.id)).Nodup) ∧
    ((∀ e ∈ (claimPending "s" 5 0 [sampleElig]).2,
      ∀ e1 ∈ (claimPending "s" 5 0 [sampleElig]).1, e1.id = e.id →
        e1.status = "email_sent" ∧ e1.emailSentAt = some 5) ∧
    (∀ e ∈ (runDispatch "s" 5 0 (fun _ => SendOutcome.fail) [sampleElig]).2,
      ∀ r ∈ (claimPending "s" 6 0
          (runDispatch "s" 5 0 (fun _ => SendOutcome.fail) [sampleElig]).1).2,
        r.id ≠ e.id) ∧
    ((runDispatch "s" 5 0 (fun _ => SendOutcome.fail) [sampleElig]).2.map (fun e => e.id) ++
      (claimPending "s" 6 0
        (runDispatch "s" 5 0 (fun _ => SendOutcome.fail) [sampleElig]).1).2.map
        (fun e => e.id)).Nodup) :=
  ⟨by decide, dispatch_claim_then_act "s" 5 0 6 0 (fun _ => SendOutcome.fail) [sampleElig]
    (by decide)⟩

/-- Claim C7: a selected row whose send reports failure or throws ends up
`email_failed`, and no claimed row is ever `pending` after a dispatch
invocation. -/
theorem dispatch_send_failure_marks_email_failed
    (shop : String) (now delay : Int) (outcome : Nat → SendOutcome)
    (db : List GiftEligibility) (hnd : (db.map (fun e => e.id)).Nodup) :
    (∀ e ∈ (runDispatch shop now delay outcome db).2,
      outcome e.id ≠ SendOutcome.success →
        rowById (runDispatch shop now delay outcome db).1 e.id =
          some { e with status := "email_failed", emailSentAt := some now }) ∧
    (∀ e ∈ (runDispatch shop now delay outcome db).2,
      ∀ r ∈ (runDispatch shop now delay outcome db).1, r.id = e.id →
        r.status ≠ "pending") := by
  have hndsel : ((claimPending shop now delay db).2.map (fun e => e.id)).Nodup := by
    rw [claimPending_snd]
    exact hnd.sublist (List.Sublist.map (fun e => e.id) (List.filter_sublist db))
  have hndF : ((runDispatch shop now delay outcome db).1.map (fun e => e.id)).Nodup := by
    have h1 : (runDispatch shop now delay outcome db).1.map (fun e => e.id) =
        db.map (fun e => e.id) := by
      show (sendPhase outcome _ _).map _ = _
      rw [ids_sendPhase, ids_claimPending]
    rw [h1]
    exact hnd
  constructor
  · intro e he hfail
    have hupd := rowById_claimPending_mem shop now delay hnd he
    have hrow := rowById_sendPhase_failed outcome (claimPending shop now delay db).1
      hndsel he hfail
    show rowById (sendPhase outcome _ _) e.id = _
    rw [hrow, hupd]
    rfl
  · intro e he r hr hid
    have hrrow : rowById (runDispatch shop now delay outcome db).1 r.id = some r :=
      rowById_of_mem hndF hr
    rw [hid] at hrrow
    have hstat := (status_of_claimed shop now delay outcome db hnd he hrrow).1
    rcases hstat with hs | hs <;> rw [hs] <;> decide

/-- Witness for the send-failure theorem at a concrete table. -/
theorem dispatch_send_failure_marks_email_failed_witness :
    (([sampleElig].map (fun e => e.id)).Nodup) ∧
    ((∀ e ∈ (runDispatch "s" 5 0 (fun _ => SendOutcome.thrown) [sampleElig]).2,
      (fun _ => SendOutcome.thrown : Nat → SendOutcome) e.id ≠ SendOutcome.success →
        rowById (runDispatch "s" 5 0 (fun _ => SendOutcome.thrown) [sampleElig]).1 e.id =
          some { e with status := "email_failed", emailSentAt := some 5 }) ∧
    (∀ e ∈ (runDispatch "s" 5 0 (fun _ => SendOutcome.thrown) [sampleElig]).2,
      ∀ r ∈ (runDispatch "s" 5 0 (fun _ => SendOutcome.thrown) [sampleElig]).1, r.id = e.id →
        r.status ≠ "pending")) :=
  ⟨by decide, dispatch_send_failure_marks_email_failed "s" 5 0
    (fun _ => SendOutcome.thrown) [sampleElig] (by decide)⟩

theorem getAllLoop_spec {α : Type} (fetch : Nat → ContractsPage α) :
    ∀ (fuel page : Nat) (acc : List α), 1001 - page = fuel → page ≤ 1000 →
      ∃ m, page ≤ m ∧ m ≤ 1000 ∧
        getAllLoop fetch page acc = acc ++ fetchedPages fetch page (m + 1 - page) ∧
        (m = 1000 ∨ (fetch m).hasMore = false) := by
  intro fuel
  induction fuel with
  | zero =>
    intro page acc hfuel hpage
    omega
  | succ fuel ih =>
    intro page acc hfuel hpage
    rw [getAllLoop]
    by_cases hbreak : 1000 < page + 1
    · have hp : page = 1000 := by omega
      subst hp
      refine ⟨1000, le_refl _, le_refl _, ?_, Or.inl rfl⟩
      rw [if_pos hbreak]
      show _ = acc ++ fetchedPages fetch 1000 1
      show _ = acc ++ ((fetch 1000).subscriptionContracts ++ fetchedPages fetch 1001 0)
      rw [show fetchedPages fetch 1001 0 = [] from rfl, List.append_nil]
    · rw [if_neg hbreak]
      by_cases hmore : (fetch page).hasMore = true
      · rw [if_pos hmore]
        obtain ⟨m, hm1, hm2, hm3, hm4⟩ :=
          ih (page + 1) (acc ++ (fetch page).subscriptionContracts) (by omega) (by omega)
        refine ⟨m, by omega, hm2, ?_, hm4⟩
        rw [hm3, List.append_assoc]
        have harith : m + 1 - page = (m - page) + 1 := by omega
        rw [harith]
        have hstep : fetchedPages fetch page ((m - page) + 1) =
            (fetch page).subscriptionContracts ++ fetchedPages fetch (page + 1) (m - page) := rfl
        rw [hstep]
        have harith2 : m + 1 - (page + 1) = m - page := by omega
        rw [harith2]
      · rw [if_neg hmore]
        refine ⟨page, le_refl _, by omega, ?_,
          Or.inr (Bool.eq_false_iff.mpr (fun h => hmore h))⟩
        have harith : page + 1 - page = 1 := by omega
        rw [harith]
        show _ = acc ++ ((fetch page).subscriptionContracts ++ fetchedPages fetch (page + 1) 0)
        rw [show fetchedPages fetch (page + 1) 0 = [] from rfl, List.append_nil]

/-- Claim C9: `getAllSubscriptionContracts` terminates against every upstream
behavior: the fetched page count is bounded by the hard ceiling (pages 0
through at most 1000), the loop stops early only when `hasMore` was reported
false, and the result is exactly the concatenation of the fetched pages. -/
theorem getAllSubscriptionContracts_terminates_bounded {α : Type}
    (fetch : Nat → ContractsPage α) :
    ∃ m, m ≤ 1000 ∧
      getAllSubscriptionContracts fetch = fetchedPages fetch 0 (m + 1) ∧
      (m = 1000 ∨ (fetch m).hasMore = false) := by
  obtain ⟨m, _, hm2, hm3, hm4⟩ := getAllLoop_spec fetch 1001 0 [] rfl (by omega)
  refine ⟨m, hm2, ?_, hm4⟩
  show getAllLoop fetch 0 [] = _
  rw [hm3, List.nil_append]
  congr 1

/-! ## Evaluator lemmas: key coverage, no-op on re-run, key uniqueness -/

theorem hasKey_append (db db2 : List GiftEligibility) (s c : String) (n : Int) :
    hasKey (db ++ db2) s c n = (hasKey db s c n || hasKey db2 s c n) :=
  List.any_append

theorem hasKey_mkEligibility (shop : String) (tokenGen : Nat → String) (now expiryDays : Int)
    (sub : SyncedSubscriber) (trigger : Int) (idv : Nat) :
    hasKey [mkEligibility shop tokenGen now expiryDays sub trigger idv]
      shop sub.contractId trigger = true := by
  simp [hasKey, mkEligibility]

theorem hasKey_createIfMissing_mono (shop : String) (tokenGen : Nat → String)
    (now expiryDays : Int) (sub : SyncedSubscriber) (trigger : Int) (st : EvalState)
    (s c : String) (n : Int) (h : hasKey st.db s c n = true) :
    hasKey (createIfMissing shop tokenGen now expiryDays sub trigger st).db s c n = true := by
  unfold createIfMissing
  split
  · exact h
  · rw [hasKey_append, h, Bool.true_or]

theorem hasKey_createIfMissing_self (shop : String) (tokenGen : Nat → String)
    (now expiryDays : Int) (sub : SyncedSubscriber) (trigger : Int) (st : EvalState) :
    hasKey (createIfMissing shop tokenGen now expiryDays sub trigger st).db
      shop sub.contractId trigger = true := by
  unfold createIfMissing
  split
  · assumption
  · rw [hasKey_append, hasKey_mkEligibility, Bool.or_true]

theorem processSubscriberGe_cons (shop : String) (tokenGen : Nat → String)
    (now expiryDays : Int) (a : Int) (tl : List Int) (sub : SyncedSubscriber)
    (st : EvalState) :
    processSubscriberGe shop tokenGen now expiryDays (a :: tl) sub st =
      processSubscriberGe shop tokenGen now expiryDays tl sub
        (if sub.totalOrdersDelivered ≥ a then
          createIfMissing shop tokenGen now expiryDays sub a st
        else st) := rfl

theorem createEligibilitiesGe_cons (shop : String) (tokenGen : Nat → String)
    (now expiryDays : Int) (triggers : List Int) (a : SyncedSubscriber)
    (tl : List SyncedSubscriber) (st : EvalState) :
    createEligibilitiesGe shop tokenGen now expiryDays triggers (a :: tl) st =
      createEligibilitiesGe shop tokenGen now expiryDays triggers tl
        (processSubscriberGe shop tokenGen now expiryDays triggers a st) := rfl

theorem hasKey_processSubscriberGe_mono (shop : String) (tokenGen : Nat → String)
    (now expiryDays : Int) (triggers : List Int) (sub : SyncedSubscriber)
    (st : EvalState) (s c : String) (n : Int) (h : hasKey st.db s c n = true) :
    hasKey (processSubscriberGe shop tokenGen now expiryDays triggers sub st).db s c n = true := by
  induction triggers generalizing st with
  | nil => exact h
  | cons a tl ih =>
    rw [processSubscriberGe_cons]
    split
    · exact ih _ (hasKey_createIfMissing_mono shop tokenGen now expiryDays sub a st s c n h)
    · exact ih st h

theorem hasKey_processSubscriberGe_covers (shop : String) (tokenGen : Nat → String)
    (now expiryDays : Int) (triggers : List Int) (sub : SyncedSubscriber)
    (st : EvalState) (t : Int) (ht : t ∈ triggers) (hq : sub.totalOrdersDelivered ≥ t) :
    hasKey (processSubscriberGe shop tokenGen now expiryDays triggers sub st).db
      shop sub.contractId t = true := by
  induction triggers generalizing st with
  | nil => cases ht
  | cons a tl ih =>
    rw [processSubscriberGe_cons]
    rcases List.mem_cons.mp ht with rfl | ht'
    · rw [if_pos hq]
      exact hasKey_processSubscriberGe_mono shop tokenGen now expiryDays tl sub _
        shop sub.contractId t
        (hasKey_createIfMissing_self shop tokenGen now expiryDays sub t st)
    · split
      · exact ih _ ht'
      · exact ih st ht'

theorem hasKey_createEligibilitiesGe_mono (shop : String) (tokenGen : Nat → String)
    (now expiryDays : Int) (triggers : List Int) (subs : List SyncedSubscriber)
    (st : EvalState) (s c : String) (n : Int) (h : hasKey st.db s c n = true) :
    hasKey (createEligibilitiesGe shop tokenGen now expiryDays triggers subs st).db
      s c n = true := by
  induction subs generalizing st with
  | nil => exact h
  | cons a tl ih =>
    rw [createEligibilitiesGe_cons]
    exact ih _ (hasKey_processSubscriberGe_mono shop tokenGen now expiryDays triggers a st s c n h)

theorem hasKey_createEligibilitiesGe_covers (shop : String) (tokenGen : Nat → String)
    (now expiryDays : Int) (triggers : List Int) (subs : List SyncedSubscriber)
    (st : EvalState) (sub : SyncedSubscriber) (t : Int)
    (hs : sub ∈ subs) (ht : t ∈ triggers) (hq : sub.totalOrdersDelivered ≥ t) :
    hasKey (createEligibilitiesGe shop tokenGen now expiryDays triggers subs st).db
      shop sub.contractId t = true := by
  induction subs generalizing st with
  | nil => cases hs
  | cons a tl ih =>
    rw [createEligibilitiesGe_cons]
    rcases List.mem_cons.mp hs with rfl | hs'
    · exact hasKey_createEligibilitiesGe_mono shop tokenGen now expiryDays triggers tl _
        shop sub.contractId t
        (hasKey_processSubscriberGe_covers shop tokenGen now expiryDays triggers sub st t ht hq)
    · exact ih _ hs'

theorem processSubscriberGe_noop (shop : String) (tokenGen : Nat → String)
    (now expiryDays : Int) (triggers : List Int) (sub : SyncedSubscriber) (st : EvalState)
    (hcov : ∀ t ∈ triggers, sub.totalOrdersDelivered ≥ t →
      hasKey st.db shop sub.contractId t = true) :
    processSubscriberGe shop tokenGen now expiryDays triggers sub st = st := by
  induction triggers generalizing st with
  | nil => rfl
  | cons a tl ih =>
    rw [processSubscriberGe_cons]
    by_cases hq : sub.totalOrdersDelivered ≥ a
    · rw [if_pos hq, show createIfMissing shop tokenGen now expiryDays sub a st = st from
        if_pos (hcov a (List.mem_cons_self a tl) hq)]
      exact ih st (fun t htl => hcov t (List.mem_cons_of_mem a htl))
    · rw [if_neg hq]
      exact ih st (fun t htl => hcov t (List.mem_cons_of_mem a htl))

theorem createEligibilitiesGe_noop (shop : String) (tokenGen : Nat → String)
    (now expiryDays : Int) (triggers : List Int) (subs : List SyncedSubscriber)
    (st : EvalState)
    (hcov : ∀ sub ∈ subs, ∀ t ∈ triggers, sub.totalOrdersDelivered ≥ t →
      hasKey st.db shop sub.contractId t = true) :
    createEligibilitiesGe shop tokenGen now expiryDays triggers subs st = st := by
  induction subs generalizing st with
  | nil => rfl
  | cons a tl ih =>
    rw [createEligibilitiesGe_cons,
      processSubscriberGe_noop shop tokenGen now expiryDays triggers a st
        (fun t htl => hcov a (List.mem_cons_self a tl) t htl)]
    exact ih st (fun sub hsub => hcov sub (List.mem_cons_of_mem a hsub))

theorem createEligibilitiesExact_cons (shop : String) (tokenGen : Nat → String)
    (now expiryDays : Int) (triggers : List Int) (a : SyncedSubscriber)
    (tl : List SyncedSubscriber) (st : EvalState) :
    createEligibilitiesExact shop tokenGen now expiryDays triggers (a :: tl) st =
      createEligibilitiesExact shop tokenGen now expiryDays triggers tl
        (processSubscriberExact shop tokenGen now expiryDays triggers a st) := rfl

theorem hasKey_processSubscriberExact_mono (shop : String) (tokenGen : Nat → String)
    (now expiryDays : Int) (triggers : List Int) (sub : SyncedSubscriber)
    (st : EvalState) (s c : String) (n : Int) (h : hasKey st.db s c n = true) :
    hasKey (processSubscriberExact shop tokenGen now expiryDays triggers sub st).db
      s c n = true := by
  unfold processSubscriberExact
  split
  · exact hasKey_createIfMissing_mono shop tokenGen now expiryDays sub _ st s c n h
  · exact h

theorem hasKey_processSubscriberExact_covers (shop : String) (tokenGen : Nat → String)
    (now expiryDays : Int) (triggers : List Int) (sub : SyncedSubscriber)
    (st : EvalState) (ht : triggers.contains sub.totalOrdersDelivered = true) :
    hasKey (processSubscriberExact shop tokenGen now expiryDays triggers sub st).db
      shop sub.contractId sub.totalOrdersDelivered = true := by
  unfold processSubscriberExact
  rw [if_pos ht]
  exact hasKey_createIfMissing_self shop tokenGen now expiryDays sub
    sub.totalOrdersDelivered st

theorem hasKey_createEligibilitiesExact_mono (shop : String) (tokenGen : Nat → String)
    (now expiryDays : Int) (triggers : List Int) (subs : List SyncedSubscriber)
    (st : EvalState) (s c : String) (n : Int) (h : hasKey st.db s c n = true) :
    hasKey (createEligibilitiesExact shop tokenGen now expiryDays triggers subs st).db
      s c n = true := by
  induction subs generalizing st with
  | nil => exact h
  | cons a tl ih =>
    rw [createEligibilitiesExact_cons]
    exact ih _
      (hasKey_processSubscriberExact_mono shop tokenGen now expiryDays triggers a st s c n h)

theorem hasKey_createEligibilitiesExact_covers (shop : String) (tokenGen : Nat → String)
    (now expiryDays : Int) (triggers : List Int) (subs : List SyncedSubscriber)
    (st : EvalState) (sub : SyncedSubscriber) (hs : sub ∈ subs)
    (ht : triggers.contains sub.totalOrdersDelivered = true) :
    hasKey (createEligibilitiesExact shop tokenGen now expiryDays triggers subs st).db
      shop sub.contractId sub.totalOrdersDelivered = true := by
  induction subs generalizing st with
  | nil => cases hs
  | cons a tl ih =>
    rw [createEligibilitiesExact_cons]
    rcases List.mem_cons.mp hs with rfl | hs'
    · exact hasKey_createEligibilitiesExact_mono shop tokenGen now expiryDays triggers tl _
        shop sub.contractId sub.totalOrdersDelivered
        (hasKey_processSubscriberExact_covers shop tokenGen now expiryDays triggers sub st ht)
    · exact ih _ hs'

theorem processSubscriberExact_noop (shop : String) (tokenGen : Nat → String)
    (now expiryDays : Int) (triggers : List Int) (sub : SyncedSubscriber) (st : EvalState)
    (hcov : triggers.contains sub.totalOrdersDelivered = true →
      hasKey st.db shop sub.contractId sub.totalOrdersDelivered = true) :
    processSubscriberExact shop tokenGen now expiryDays triggers sub st = st := by
  unfold processSubscriberExact
  split
  · exact if_pos (hcov (by assumption))
  · rfl

theorem createEligibilitiesExact_noop (shop : String) (tokenGen : Nat → String)
    (now expiryDays : Int) (triggers : List Int) (subs : List SyncedSubscriber)
    (st : EvalState)
    (hcov : ∀ sub ∈ subs, triggers.contains sub.totalOrdersDelivered = true →
      hasKey st.db shop sub.contractId sub.totalOrdersDelivered = true) :
    createEligibilitiesExact shop tokenGen now expiryDays triggers subs st = st := by
  induction subs generalizing st with
  | nil => rfl
  | cons a tl ih =>
    rw [createEligibilitiesExact_cons,
      processSubscriberExact_noop shop tokenGen now expiryDays triggers a st
        (hcov a (List.mem_cons_self a tl))]
    exact ih st (fun sub hsub => hcov sub (List.mem_cons_of_mem a hsub))

theorem not_mem_keys_of_hasKey_false {db : List GiftEligibility} {s c : String} {n : Int}
    (h : hasKey db s c n = false) : (s, c, n) ∉ db.map keyOf := by
  intro hmem
  obtain ⟨e, he, hkey⟩ := List.mem_map.mp hmem
  have h1 : e.shop = s := congrArg (fun p => p.1) hkey
  have h2 : e.subscriptionContractId = c := congrArg (fun p => p.2.1) hkey
  have h3 : e.orderNumber = n := congrArg (fun p => p.2.2) hkey
  have : hasKey db s c n = true := by
    apply List.any_eq_true.mpr
    refine ⟨e, he, ?_⟩
    rw [Bool.and_eq_true, Bool.and_eq_true]
    exact ⟨⟨beq_iff_eq.mpr h1, beq_iff_eq.mpr h2⟩, beq_iff_eq.mpr h3⟩
  rw [h] at this
  cases this

theorem keysNodup_append_new {db : List GiftEligibility} {e : GiftEligibility}
    (hnd : (db.map keyOf).Nodup) (hnew : keyOf e ∉ db.map keyOf) :
    ((db ++ [e]).map keyOf).Nodup := by
  rw [List.map_append, List.nodup_append]
  refine ⟨hnd, List.nodup_singleton _, ?_⟩
  intro a ha hb
  simp only [List.map_cons, List.map_nil, List.mem_singleton] at hb
  exact hnew (hb ▸ ha)

theorem keysNodup_createIfMissing (shop : String) (tokenGen : Nat → String)
    (now expiryDays : Int) (sub : SyncedSubscriber) (trigger : Int) (st : EvalState)
    (hnd : (st.db.map keyOf).Nodup) :
    ((createIfMissing shop tokenGen now expiryDays sub trigger st).db.map keyOf).Nodup := by
  unfold createIfMissing
  split
  · exact hnd
  · apply keysNodup_append_new hnd
    have hfalse : hasKey st.db shop sub.contractId trigger = false :=
      Bool.eq_false_iff.mpr (by assumption)
    exact not_mem_keys_of_hasKey_false hfalse

theorem keysNodup_processSubscriberGe (shop : String) (tokenGen : Nat → String)
    (now expiryDays : Int) (triggers : List Int) (sub : SyncedSubscriber) (st : EvalState)
    (hnd : (st.db.map keyOf).Nodup) :
    ((processSubscriberGe shop tokenGen now expiryDays triggers sub st).db.map keyOf).Nodup := by
  induction triggers generalizing st with
  | nil => exact hnd
  | cons a tl ih =>
    rw [processSubscriberGe_cons]
    split
    · exact ih _ (keysNodup_createIfMissing shop tokenGen now expiryDays sub a st hnd)
    · exact ih st hnd

theorem keysNodup_createEligibilitiesGe (shop : String) (tokenGen : Nat → String)
    (now expiryDays : Int) (triggers : List Int) (subs : List SyncedSubscriber)
    (st : EvalState) (hnd : (st.db.map keyOf).Nodup) :
    ((createEligibilitiesGe shop tokenGen now expiryDays triggers subs st).db.map keyOf).Nodup := by
  induction subs generalizing st with
  | nil => exact hnd
  | cons a tl ih =>
    rw [createEligibilitiesGe_cons]
    exact ih _ (keysNodup_processSubscriberGe shop tokenGen now expiryDays triggers a st hnd)

theorem keysNodup_processSubscriberExact (shop : String) (tokenGen : Nat → String)
    (now expiryDays : Int) (triggers : List Int) (sub : SyncedSubscriber) (st : EvalState)
    (hnd : (st.db.map keyOf).Nodup) :
    ((processSubscriberExact shop tokenGen now expiryDays triggers sub st).db.map keyOf).Nodup := by
  unfold processSubscriberExact
  split
  · exact keysNodup_createIfMissing shop tokenGen now expiryDays sub _ st hnd
  · exact hnd

theorem keysNodup_createEligibilitiesExact (shop : String) (tokenGen : Nat → String)
    (now expiryDays : Int) (triggers : List Int) (subs : List SyncedSubscriber)
    (st : EvalState) (hnd : (st.db.map keyOf).Nodup) :
    ((createEligibilitiesExact shop tokenGen now expiryDays triggers subs st).db.map
      keyOf).Nodup := by
  induction subs generalizing st with
  | nil => exact hnd
  | cons a tl ih =>
    rw [createEligibilitiesExact_cons]
    exact ih _ (keysNodup_processSubscriberExact shop tokenGen now expiryDays triggers a st hnd)

/-! ## Webhook lemmas -/

theorem handleOrderPaid_hasKey_true (shop : String) (customerId : Option Int)
    (customerEmail : Option String) (firstName lastName : Option String) (orderId : String)
    (giftSettings : Option GiftSettingsRec) (hasApiKey : Bool) (completedOrders : Int)
    (subs : List SyncedSubscriber) (newId : Nat) (token : String) (now : Int)
    (emailOutcome : SendOutcome) (db : List GiftEligibility)
    (hk : hasKey db shop (webhookContractId shop customerId orderId subs)
      completedOrders = true) :
    handleOrderPaid shop customerId customerEmail firstName lastName orderId giftSettings
      hasApiKey completedOrders subs newId token now emailOutcome db = db := by
  simp only [handleOrderPaid]
  repeat' split
  all_goals rfl

theorem handleOrderPaid_result (shop : String) (customerId : Option Int)
    (customerEmail : Option String) (firstName lastName : Option String) (orderId : String)
    (giftSettings : Option GiftSettingsRec) (hasApiKey : Bool) (completedOrders : Int)
    (subs : List SyncedSubscriber) (newId : Nat) (token : String) (now : Int)
    (emailOutcome : SendOutcome) (db : List GiftEligibility)
    (hfresh : ∀ r ∈ db, r.id ≠ newId) :
    handleOrderPaid shop customerId customerEmail firstName lastName orderId giftSettings
      hasApiKey completedOrders subs newId token now emailOutcome db = db ∨
    ∃ gs row', giftSettings = some gs ∧
      (parseTriggerNumbers gs.triggerOrderNumbers).contains completedOrders = true ∧
      hasKey db shop (webhookContractId shop customerId orderId subs) completedOrders = false ∧
      keyOf row' = (shop, webhookContractId shop customerId orderId subs, completedOrders) ∧
      row'.id = newId ∧
      handleOrderPaid shop customerId customerEmail firstName lastName orderId giftSettings
        hasApiKey completedOrders subs newId token now emailOutcome db = db ++ [row'] := by
  simp only [handleOrderPaid]
  repeat' split
  all_goals try exact Or.inl rfl
  all_goals right
  case _ gs hen hemp hapi hcont hnokey hdelay x =>
    refine ⟨gs, { webhookElig shop customerId customerEmail firstName lastName
        (webhookContractId shop customerId orderId subs) completedOrders newId token now
        gs.giftExpiryDays with status := "email_sent", emailSentAt := some now },
      rfl, by simp_all, by simp_all, rfl, rfl, ?_⟩
    rw [List.map_append]
    congr 1
    · trans (db.map id)
      · exact List.map_congr_left (fun r hr => by simp [webhookElig, hfresh r hr])
      · exact List.map_id db
    · simp [webhookElig]
  all_goals
    exact ⟨_, webhookElig shop customerId customerEmail firstName lastName
        (webhookContractId shop customerId orderId subs) completedOrders newId token now
        _,
      rfl, by simp_all, by simp_all, rfl, rfl, rfl⟩

theorem hasKey_singleton_of_keyOf {e : GiftEligibility} {s c : String} {n : Int}
    (h : keyOf e = (s, c, n)) : hasKey [e] s c n = true := by
  have h1 : e.shop = s := congrArg (fun p => p.1) h
  have h2 : e.subscriptionContractId = c := congrArg (fun p => p.2.1) h
  have h3 : e.orderNumber = n := congrArg (fun p => p.2.2) h
  simp [hasKey, h1, h2, h3]

/-- Claim C3: every creation path (scheduled `>=` evaluator shared by the
in-process cron and the admin action, the /api/cron exact-match evaluator,
and the order-paid webhook) preserves uniqueness of the
`(shop, contract, threshold)` key, and re-running any of them on its own
output creates nothing new. -/
theorem eligibility_key_unique_and_idempotent
    (shop : String) (tokenGen tokenGen2 : Nat → String) (now now2 expiryDays expiryDays2 : Int)
    (triggers : List Int) (subs : List SyncedSubscriber) (st : EvalState) (m : Nat)
    (customerId : Option Int) (customerEmail : Option String)
    (firstName lastName : Option String) (orderId : String)
    (giftSettings : Option GiftSettingsRec) (hasApiKey : Bool) (completedOrders : Int)
    (wsubs : List SyncedSubscriber) (newId : Nat) (token : String) (wnow : Int)
    (emailOutcome : SendOutcome) (db : List GiftEligibility)
    (hndSt : (st.db.map keyOf).Nodup) (hndDb : (db.map keyOf).Nodup)
    (hfresh : ∀ r ∈ db, r.id ≠ newId) :
    ((createEligibilitiesGe shop tokenGen now expiryDays triggers subs st).db.map keyOf).Nodup ∧
    ((createEligibilitiesExact shop tokenGen now expiryDays triggers subs st).db.map
      keyOf).Nodup ∧
    ((handleOrderPaid shop customerId customerEmail firstName lastName orderId giftSettings
        hasApiKey completedOrders wsubs newId token wnow emailOutcome db).map keyOf).Nodup ∧
    createEligibilitiesGe shop tokenGen2 now2 expiryDays2 triggers subs
      ⟨(createEligibilitiesGe shop tokenGen now expiryDays triggers subs st).db, 0, m⟩ =
      ⟨(createEligibilitiesGe shop tokenGen now expiryDays triggers subs st).db, 0, m⟩ ∧
    createEligibilitiesExact shop tokenGen2 now2 expiryDays2 triggers subs
      ⟨(createEligibilitiesExact shop tokenGen now expiryDays triggers subs st).db, 0, m⟩ =
      ⟨(createEligibilitiesExact shop tokenGen now expiryDays triggers subs st).db, 0, m⟩ ∧
    handleOrderPaid shop customerId customerEmail firstName lastName orderId giftSettings
      hasApiKey completedOrders wsubs newId token wnow emailOutcome
      (handleOrderPaid shop customerId customerEmail firstName lastName orderId giftSettings
        hasApiKey completedOrders wsubs newId token wnow emailOutcome db) =
      handleOrderPaid shop customerId customerEmail firstName lastName orderId giftSettings
        hasApiKey completedOrders wsubs newId token wnow emailOutcome db := by
  refine ⟨keysNodup_createEligibilitiesGe shop tokenGen now expiryDays triggers subs st hndSt,
    keysNodup_createEligibilitiesExact shop tokenGen now expiryDays triggers subs st hndSt,
    ?_, ?_, ?_, ?_⟩
  · rcases handleOrderPaid_result shop customerId customerEmail firstName lastName orderId
        giftSettings hasApiKey completedOrders wsubs newId token wnow emailOutcome db hfresh
      with hdb | ⟨gs, row', _, _, hnokey, hkey, _, heq⟩
    · rw [hdb]
      exact hndDb
    · rw [heq]
      apply keysNodup_append_new hndDb
      rw [hkey]
      exact not_mem_keys_of_hasKey_false hnokey
  · apply createEligibilitiesGe_noop
    intro sub hsub t ht hq
    exact hasKey_createEligibilitiesGe_covers shop tokenGen now expiryDays triggers subs st
      sub t hsub ht hq
  · apply createEligibilitiesExact_noop
    intro sub hsub ht
    exact hasKey_createEligibilitiesExact_covers shop tokenGen now expiryDays triggers subs st
      sub hsub ht
  · rcases handleOrderPaid_result shop customerId customerEmail firstName lastName orderId
        giftSettings hasApiKey completedOrders wsubs newId token wnow emailOutcome db hfresh
      with hdb | ⟨gs, row', _, _, hnokey, hkey, _, heq⟩
    · rw [hdb, hdb]
    · rw [heq]
      apply handleOrderPaid_hasKey_true
      rw [hasKey_append]
      rw [hasKey_singleton_of_keyOf hkey, Bool.or_true]

/-- Witness for the key-uniqueness and idempotence theorem at concrete inputs. -/
theorem eligibility_key_unique_and_idempotent_witness :
    ((([] : List GiftEligibility).map keyOf).Nodup ∧
     (([sampleElig2].map keyOf).Nodup) ∧
     (∀ r ∈ [sampleElig2], r.id ≠ 7)) ∧
    (((createEligibilitiesGe "s" sampleTokenGen 0 14 (parseTriggerNumbers "3,5,10")
        [sampleSub] ⟨[], 0, 0⟩).db.map keyOf).Nodup ∧
    ((createEligibilitiesExact "s" sampleTokenGen 0 14 (parseTriggerNumbers "3,5,10")
        [sampleSub] ⟨[], 0, 0⟩).db.map keyOf).Nodup ∧
    ((handleOrderPaid "s" (some 5) (some "a@b.c") (some "Ann") (some "Lee") "900"
        (some sampleSettings) true 5 [sampleSub] 7 "tk" 0 SendOutcome.fail
        [sampleElig2]).map keyOf).Nodup ∧
    createEligibilitiesGe "s" sampleTokenGen 1 14 (parseTriggerNumbers "3,5,10") [sampleSub]
      ⟨(createEligibilitiesGe "s" sampleTokenGen 0 14 (parseTriggerNumbers "3,5,10")
          [sampleSub] ⟨[], 0, 0⟩).db, 0, 9⟩ =
      ⟨(createEligibilitiesGe "s" sampleTokenGen 0 14 (parseTriggerNumbers "3,5,10")
          [sampleSub] ⟨[], 0, 0⟩).db, 0, 9⟩ ∧
    createEligibilitiesExact "s" sampleTokenGen 1 14 (parseTriggerNumbers "3,5,10") [sampleSub]
      ⟨(createEligibilitiesExact "s" sampleTokenGen 0 14 (parseTriggerNumbers "3,5,10")
          [sampleSub] ⟨[], 0, 0⟩).db, 0, 9⟩ =
      ⟨(createEligibilitiesExact "s" sampleTokenGen 0 14 (parseTriggerNumbers "3,5,10")
          [sampleSub] ⟨[], 0, 0⟩).db, 0, 9⟩ ∧
    handleOrderPaid "s" (some 5) (some "a@b.c") (some "Ann") (some "Lee") "900"
      (some sampleSettings) true 5 [sampleSub] 7 "tk" 0 SendOutcome.fail
      (handleOrderPaid "s" (some 5) (some "a@b.c") (some "Ann") (some "Lee") "900"
        (some sampleSettings) true 5 [sampleSub] 7 "tk" 0 SendOutcome.fail [sampleElig2]) =
      handleOrderPaid "s" (some 5) (some "a@b.c") (some "Ann") (some "Lee") "900"
        (some sampleSettings) true 5 [sampleSub] 7 "tk" 0 SendOutcome.fail [sampleElig2]) :=
  ⟨⟨by decide, by decide, by decide⟩,
    eligibility_key_unique_and_idempotent "s" sampleTokenGen sampleTokenGen 0 1 14 14
      (parseTriggerNumbers "3,5,10") [sampleSub] ⟨[], 0, 0⟩ 9
      (some 5) (some "a@b.c") (some "Ann") (some "Lee") "900" (some sampleSettings) true 5
      [sampleSub] 7 "tk" 0 SendOutcome.fail [sampleElig2]
      (by decide) (by decide) (by decide)⟩

/-- Counterexample to claim C2: the /api/cron trigger's evaluation pass — one
of the scheduled evaluation paths the claim covers — creates exactly one
eligibility (threshold 5), not two, for a subscriber with five delivered
orders, thresholds "3,5,10" and no pre-existing rows, because it matches
`triggerNumbers.includes(totalOrdersDelivered)` instead of using the
`>=` policy. -/
theorem apiCron_evaluator_creates_one_not_two :
    (createEligibilitiesExact "s" sampleTokenGen 0 14 (parseTriggerNumbers "3,5,10")
      [sampleSub] ⟨[], 0, 0⟩).created = 1 ∧
    ¬ ((createEligibilitiesExact "s" sampleTokenGen 0 14 (parseTriggerNumbers "3,5,10")
      [sampleSub] ⟨[], 0, 0⟩).created = 2) := by
  constructor
  · decide
  · decide

/-- Claim C2 (amended): for a subscriber with `totalOrdersDelivered = 5`,
thresholds "3,5,10" and no pre-existing rows, the in-process cron's
evaluator (shared with the admin `processEligible` action) uses the `>=`
policy and creates exactly two rows, at thresholds 3 and 5; the /api/cron
trigger's evaluator instead uses exact matching and creates exactly one
row, at threshold 5. -/
theorem evaluator_policy_ge_vs_exact :
    (createEligibilitiesGe "s" sampleTokenGen 0 14 (parseTriggerNumbers "3,5,10")
      [sampleSub] ⟨[], 0, 0⟩).created = 2 ∧
    ((createEligibilitiesGe "s" sampleTokenGen 0 14 (parseTriggerNumbers "3,5,10")
      [sampleSub] ⟨[], 0, 0⟩).db.map (fun e => e.orderNumber)) = [3, 5] ∧
    (createEligibilitiesExact "s" sampleTokenGen 0 14 (parseTriggerNumbers "3,5,10")
      [sampleSub] ⟨[], 0, 0⟩).created = 1 ∧
    ((createEligibilitiesExact "s" sampleTokenGen 0 14 (parseTriggerNumbers "3,5,10")
      [sampleSub] ⟨[], 0, 0⟩).db.map (fun e => e.orderNumber)) = [5] := by
  refine ⟨by decide, by decide, by decide, by decide⟩

/-- Claim C8: the order-paid webhook creates an eligibility only when the
upstream completed-order count is exactly one of the configured thresholds;
for any other count it leaves the GiftEligibility table untouched. -/
theorem webhook_creates_only_on_exact_trigger
    (shop : String) (customerId : Option Int) (customerEmail : Option String)
    (firstName lastName : Option String) (orderId : String) (gs : GiftSettingsRec)
    (hasApiKey : Bool) (completedOrders : Int) (subs : List SyncedSubscriber)
    (newId : Nat) (token : String) (now : Int) (emailOutcome : SendOutcome)
    (db : List GiftEligibility) (hfresh : ∀ r ∈ db, r.id ≠ newId) :
    ((parseTriggerNumbers gs.triggerOrderNumbers).contains completedOrders = false →
      handleOrderPaid shop customerId customerEmail firstName lastName orderId (some gs)
        hasApiKey completedOrders subs newId token now emailOutcome db = db) ∧
    (∀ e' ∈ handleOrderPaid shop customerId customerEmail firstName lastName orderId (some gs)
        hasApiKey completedOrders subs newId token now emailOutcome db,
      e' ∈ db ∨ (e'.orderNumber = completedOrders ∧
        (parseTriggerNumbers gs.triggerOrderNumbers).contains completedOrders = true)) := by
  constructor
  · intro hcont
    simp only [handleOrderPaid, hcont, Bool.not_false]
    repeat' split
    all_goals first
      | rfl
      | (exfalso; simp_all)
  · rcases handleOrderPaid_result shop customerId customerEmail firstName lastName orderId
        (some gs) hasApiKey completedOrders subs newId token now emailOutcome db hfresh
      with hdb | ⟨gs2, row', hgs2, hcont, _, hkey, _, heq⟩
    · rw [hdb]
      intro e' he'
      exact Or.inl he'
    · rw [heq]
      intro e' he'
      rcases List.mem_append.mp he' with hin | hone
      · exact Or.inl hin
      · right
        have hrow : e' = row' := List.mem_singleton.mp hone
        have hg : gs2 = gs := by
          injection hgs2 with h
          exact h.symm
        subst hrow
        subst hg
        exact ⟨congrArg (fun p => p.2.2) hkey, hcont⟩

/-- Witness for the webhook exact-match theorem: four completed orders does
not hit any of the thresholds "3,5,10", so the table is unchanged. -/
theorem webhook_creates_only_on_exact_trigger_witness :
    ((∀ r ∈ [sampleElig2], r.id ≠ 7) ∧
     (parseTriggerNumbers sampleSettings.triggerOrderNumbers).contains 4 = false) ∧
    (((parseTriggerNumbers sampleSettings.triggerOrderNumbers).contains 4 = false →
      handleOrderPaid "s" (some 5) (some "a@b.c") (some "Ann") (some "Lee") "900"
        (some sampleSettings) true 4 [sampleSub] 7 "tk" 0 SendOutcome.fail
        [sampleElig2] = [sampleElig2]) ∧
    (∀ e' ∈ handleOrderPaid "s" (some 5) (some "a@b.c") (some "Ann") (some "Lee") "900"
        (some sampleSettings) true 4 [sampleSub] 7 "tk" 0 SendOutcome.fail [sampleElig2],
      e' ∈ [sampleElig2] ∨ (e'.orderNumber = 4 ∧
        (parseTriggerNumbers sampleSettings.triggerOrderNumbers).contains 4 = true))) :=
  ⟨⟨by decide, by decide⟩,
    webhook_creates_only_on_exact_trigger "s" (some 5) (some "a@b.c") (some "Ann") (some "Lee")
      "900" sampleSettings true 4 [sampleSub] 7 "tk" 0 SendOutcome.fail [sampleElig2]
      (by decide)⟩

/-- Claim C10: when the webhook creates an eligibility with emailDelayDays 0
and the immediate send fails or throws, the row is left `pending` with
`emailSentAt` null, so it matches the dispatch predicate of the next cycle
and is selected by it — unlike a dispatch-path failure, whose
`email_failed` status never matches the predicate. -/
theorem webhook_email_failure_leaves_pending
    (shop : String) (customerId : Option Int) (customerEmail : Option String)
    (firstName lastName : Option String) (orderId : String) (gs : GiftSettingsRec)
    (completedOrders : Int) (subs : List SyncedSubscriber)
    (newId : Nat) (token : String) (now now2 delay2 : Int) (emailOutcome : SendOutcome)
    (db : List GiftEligibility)
    (hguard1 : intTruthy customerId = true) (hguard2 : strTruthy customerEmail = true)
    (hen : gs.enabled = true) (hdelay : gs.emailDelayDays = 0)
    (hne : (parseTriggerNumbers gs.triggerOrderNumbers).isEmpty = false)
    (hcont : (parseTriggerNumbers gs.triggerOrderNumbers).contains completedOrders = true)
    (hnokey : hasKey db shop (webhookContractId shop customerId orderId subs)
      completedOrders = false)
    (hout : emailOutcome ≠ SendOutcome.success)
    (hc1 : now ≤ now2 - delay2) (hc2 : now2 < now + gs.giftExpiryDays) :
    handleOrderPaid shop customerId customerEmail firstName lastName orderId (some gs)
      true completedOrders subs newId token now emailOutcome db =
      db ++ [webhookElig shop customerId customerEmail firstName lastName
        (webhookContractId shop customerId orderId subs) completedOrders newId token now
        gs.giftExpiryDays] ∧
    (webhookElig shop customerId customerEmail firstName lastName
      (webhookContractId shop customerId orderId subs) completedOrders newId token now
      gs.giftExpiryDays).status = "pending" ∧
    (webhookElig shop customerId customerEmail firstName lastName
      (webhookContractId shop customerId orderId subs) completedOrders newId token now
      gs.giftExpiryDays).emailSentAt = none ∧
    dispatchPredicate shop now2 delay2 (webhookElig shop customerId customerEmail firstName
      lastName (webhookContractId shop customerId orderId subs) completedOrders newId token
      now gs.giftExpiryDays) = true ∧
    webhookElig shop customerId customerEmail firstName lastName
      (webhookContractId shop customerId orderId subs) completedOrders newId token now
      gs.giftExpiryDays ∈
      (claimPending shop now2 delay2
        (handleOrderPaid shop customerId customerEmail firstName lastName orderId (some gs)
          true completedOrders subs newId token now emailOutcome db)).2 ∧
    (∀ r : GiftEligibility, r.status = "email_failed" →
      dispatchPredicate shop now2 delay2 r = false) := by
  have hresult : handleOrderPaid shop customerId customerEmail firstName lastName orderId
      (some gs) true completedOrders subs newId token now emailOutcome db =
      db ++ [webhookElig shop customerId customerEmail firstName lastName
        (webhookContractId shop customerId orderId subs) completedOrders newId token now
        gs.giftExpiryDays] := by
    have hmem : completedOrders ∈ parseTriggerNumbers gs.triggerOrderNumbers := by
      simpa using hcont
    cases emailOutcome
    · exact absurd rfl hout
    · simp [handleOrderPaid, hguard1, hguard2, hen, hne, hcont, hmem, hnokey, hdelay]
    · simp [handleOrderPaid, hguard1, hguard2, hen, hne, hcont, hmem, hnokey, hdelay]
  have hpred : dispatchPredicate shop now2 delay2 (webhookElig shop customerId customerEmail
      firstName lastName (webhookContractId shop customerId orderId subs) completedOrders
      newId token now gs.giftExpiryDays) = true := by
    simp [dispatchPredicate, webhookElig, hc1, hc2]
  refine ⟨hresult, rfl, rfl, hpred, ?_, ?_⟩
  · rw [claimPending_snd]
    apply List.mem_filter.mpr
    constructor
    · rw [hresult]
      exact List.mem_append_right db (List.mem_singleton_self _)
    · exact hpred
  · intro r hr
    simp [dispatchPredicate, hr]

/-- Witness for the webhook email-failure theorem at concrete inputs. -/
theorem webhook_email_failure_leaves_pending_witness :
    (intTruthy (some 5) = true ∧ strTruthy (some "a@b.c") = true ∧
     sampleSettings.enabled = true ∧ sampleSettings.emailDelayDays = 0 ∧
     (parseTriggerNumbers sampleSettings.triggerOrderNumbers).isEmpty = false ∧
     (parseTriggerNumbers sampleSettings.triggerOrderNumbers).contains 5 = true ∧
     hasKey [] "s" (webhookContractId "s" (some 5) "900" [sampleSub]) 5 = false ∧
     SendOutcome.fail ≠ SendOutcome.success ∧
     (0 : Int) ≤ 1 - 0 ∧ (1 : Int) < 0 + sampleSettings.giftExpiryDays) ∧
    (handleOrderPaid "s" (some 5) (some "a@b.c") (some "Ann") (some "Lee") "900"
      (some sampleSettings) true 5 [sampleSub] 7 "tk" 0 SendOutcome.fail [] =
      [] ++ [webhookElig "s" (some 5) (some "a@b.c") (some "Ann") (some "Lee")
        (webhookContractId "s" (some 5) "900" [sampleSub]) 5 7 "tk" 0
        sampleSettings.giftExpiryDays] ∧
    (webhookElig "s" (some 5) (some "a@b.c") (some "Ann") (some "Lee")
      (webhookContractId "s" (some 5) "900" [sampleSub]) 5 7 "tk" 0
      sampleSettings.giftExpiryDays).status = "pending" ∧
    (webhookElig "s" (some 5) (some "a@b.c") (some "Ann") (some "Lee")
      (webhookContractId "s" (some 5) "900" [sampleSub]) 5 7 "tk" 0
      sampleSettings.giftExpiryDays).emailSentAt = none ∧
    dispatchPredicate "s" 1 0 (webhookElig "s" (some 5) (some "a@b.c") (some "Ann")
      (some "Lee") (webhookContractId "s" (some 5) "900" [sampleSub]) 5 7 "tk" 0
      sampleSettings.giftExpiryDays) = true ∧
    webhookElig "s" (some 5) (some "a@b.c") (some "Ann") (some "Lee")
      (webhookContractId "s" (some 5) "900" [sampleSub]) 5 7 "tk" 0
      sampleSettings.giftExpiryDays ∈
      (claimPending "s" 1 0
        (handleOrderPaid "s" (some 5) (some "a@b.c") (some "Ann") (some "Lee") "900"
          (some sampleSettings) true 5 [sampleSub] 7 "tk" 0 SendOutcome.fail [])).2 ∧
    (∀ r : GiftEligibility, r.status = "email_failed" →
      dispatchPredicate "s" 1 0 r = false)) :=
  ⟨⟨by decide, by decide, by decide, by decide, by decide, by decide, by decide, by decide,
    by decide, by decide⟩,
    webhook_email_failure_leaves_pending "s" (some 5) (some "a@b.c") (some "Ann") (some "Lee")
      "900" sampleSettings 5 [sampleSub] 7 "tk" 0 1 0 SendOutcome.fail []
      (by decide) (by decide) (by decide) (by decide) (by decide) (by decide) (by decide)
      (by decide) (by decide) (by decide)⟩

/-- Claim C5: an eligibility whose expiry instant has passed fails both the
verification endpoint and the selection endpoint regardless of its stored
status, and neither endpoint writes to the table (in particular the stored
status is not relabelled). -/
theorem expiry_enforced_at_read
    (token : String) (emailParam : Option String) (now : Int)
    (db : List GiftEligibility) (settings : Option GiftSettingsRec)
    (apiKeyConfigured : Bool) (applyOne : Nat → AddResult) (selIdStart : Nat)
    (products : List GiftProduct) (selections : List GiftSelection)
    (e : GiftEligibility)
    (htok : strTruthy (some token) = true)
    (hprod : products.isEmpty = false)
    (hfind : findByToken db token = some e)
    (hexp : e.expiresAt < now) :
    giftVerifyLoader (some token) emailParam now db settings =
      (VerifyResult.invalid "This gift link has expired", db) ∧
    giftSelectAction (some token) products db selections settings apiKeyConfigured applyOne
      now selIdStart =
      { response := SelectResponse.failure "This gift link has expired"
        dbAfter := db, selectionsAfter := selections, upstreamAttempts := [] } := by
  constructor
  · simp [giftVerifyLoader, htok, hfind, hexp]
  · simp [giftSelectAction, htok, hprod, hfind, hexp]

/-- Witness for the expiry theorem: a `pending` eligibility whose expiry
day 100 is before the current day 200. -/
theorem expiry_enforced_at_read_witness :
    (strTruthy (some "tok1") = true ∧ [sampleProduct].isEmpty = false ∧
     findByToken [sampleElig] "tok1" = some sampleElig ∧ sampleElig.expiresAt < 200) ∧
    (giftVerifyLoader (some "tok1") none 200 [sampleElig] (some sampleSettings) =
      (VerifyResult.invalid "This gift link has expired", [sampleElig]) ∧
    giftSelectAction (some "tok1") [sampleProduct] [sampleElig] [] (some sampleSettings)
      true (fun _ => { success := true, lineId := some "L", error := none }) 200 0 =
      { response := SelectResponse.failure "This gift link has expired"
        dbAfter := [sampleElig], selectionsAfter := [], upstreamAttempts := [] }) :=
  ⟨⟨by decide, by decide, by decide, by decide⟩,
    expiry_enforced_at_read "tok1" none 200 [sampleElig] (some sampleSettings) true
      (fun _ => { success := true, lineId := some "L", error := none }) 0 [sampleProduct] []
      sampleElig (by decide) (by decide) (by decide) (by decide)⟩

theorem invalid_token_msg_ne_limit_msg (s : String) :
    ("Invalid gift token. Please use the link from your email." : String) ≠
      "You can only select up to " ++ s ++ " products" := by
  intro h
  have h2 := congrArg String.data h
  rw [String.data_append, String.data_append] at h2
  simp [List.cons_append] at h2

theorem expired_msg_ne_limit_msg (s : String) :
    ("This gift link has expired" : String) ≠
      "You can only select up to " ++ s ++ " products" := by
  intro h
  have h2 := congrArg String.data h
  rw [String.data_append, String.data_append] at h2
  simp [List.cons_append] at h2

theorem already_msg_ne_limit_msg (s : String) :
    ("You have already selected your free gifts" : String) ≠
      "You can only select up to " ++ s ++ " products" := by
  intro h
  have h2 := congrArg String.data h
  rw [String.data_append, String.data_append] at h2
  simp [List.cons_append] at h2

/-- Claim C6: the selection endpoint validates token existence, then expiry,
then already-redeemed status, then the selection limit, failing fast with a
distinct message at each step; in every failure case nothing is persisted
and no upstream write is attempted. -/
theorem select_validation_order
    (token : String) (products : List GiftProduct) (db : List GiftEligibility)
    (selections : List GiftSelection) (settings : Option GiftSettingsRec)
    (apiKeyConfigured : Bool) (applyOne : Nat → AddResult) (now : Int) (selIdStart : Nat)
    (htok : strTruthy (some token) = true)
    (hprod : products.isEmpty = false) :
    (findByToken db token = none →
      giftSelectAction (some token) products db selections settings apiKeyConfigured
        applyOne now selIdStart =
        { response := SelectResponse.failure
            "Invalid gift token. Please use the link from your email."
          dbAfter := db, selectionsAfter := selections, upstreamAttempts := [] }) ∧
    (∀ e, findByToken db token = some e → now > e.expiresAt →
      giftSelectAction (some token) products db selections settings apiKeyConfigured
        applyOne now selIdStart =
        { response := SelectResponse.failure "This gift link has expired"
          dbAfter := db, selectionsAfter := selections, upstreamAttempts := [] }) ∧
    (∀ e, findByToken db token = some e → ¬ (now > e.expiresAt) →
      (e.status = "selected" ∨ e.status = "applied") →
      giftSelectAction (some token) products db selections settings apiKeyConfigured
        applyOne now selIdStart =
        { response := SelectResponse.failure "You have already selected your free gifts"
          dbAfter := db, selectionsAfter := selections, upstreamAttempts := [] }) ∧
    (∀ e, findByToken db token = some e → ¬ (now > e.expiresAt) →
      e.status ≠ "selected" → e.status ≠ "applied" →
      (products.length : Int) > maxGiftsOf settings →
      giftSelectAction (some token) products db selections settings apiKeyConfigured
        applyOne now selIdStart =
        { response := SelectResponse.failure
            ("You can only select up to " ++ toString (maxGiftsOf settings) ++ " products")
          dbAfter := db, selectionsAfter := selections, upstreamAttempts := [] }) ∧
    (("Invalid gift token. Please use the link from your email." : String) ≠
        "This gift link has expired" ∧
      ("Invalid gift token. Please use the link from your email." : String) ≠
        "You have already selected your free gifts" ∧
      ("Invalid gift token. Please use the link from your email." : String) ≠
        "You can only select up to " ++ toString (maxGiftsOf settings) ++ " products" ∧
      ("This gift link has expired" : String) ≠
        "You have already selected your free gifts" ∧
      ("This gift link has expired" : String) ≠
        "You can only select up to " ++ toString (maxGiftsOf settings) ++ " products" ∧
      ("You have already selected your free gifts" : String) ≠
        "You can only select up to " ++ toString (maxGiftsOf settings) ++ " products") := by
  refine ⟨?_, ?_, ?_, ?_, by decide, by decide,
    invalid_token_msg_ne_limit_msg (toString (maxGiftsOf settings)), by decide,
    expired_msg_ne_limit_msg (toString (maxGiftsOf settings)),
    already_msg_ne_limit_msg (toString (maxGiftsOf settings))⟩
  · intro hfind
    simp [giftSelectAction, htok, hprod, hfind]
  · intro e hfind hexp
    simp [giftSelectAction, htok, hprod, hfind, hexp]
  · intro e hfind hnexp hstat
    rcases hstat with hs | hs <;>
      simp [giftSelectAction, htok, hprod, hfind, hnexp, hs]
  · intro e hfind hnexp hs1 hs2 hcount
    simp [giftSelectAction, htok, hprod, hfind, hnexp, hs1, hs2, hcount]

/-- Witness for the validation-order theorem: an unknown token on an empty
table fails with the invalid-token message and persists nothing. -/
theorem select_validation_order_witness :
    strTruthy (some "tok1") = true ∧ [sampleProduct].isEmpty = false ∧
    findByToken [] "tok1" = none ∧
    giftSelectAction (some "tok1") [sampleProduct] [] [] (some sampleSettings) true
      (fun _ => { success := true, lineId := some "L", error := none }) 0 0 =
      { response := SelectResponse.failure
          "Invalid gift token. Please use the link from your email."
        dbAfter := [], selectionsAfter := [], upstreamAttempts := [] } :=
  ⟨by decide, by decide, by decide,
    (select_validation_order "tok1" [sampleProduct] [] [] (some sampleSettings) true
      (fun _ => { success := true, lineId := some "L", error := none }) 0 0
      (by decide) (by decide)).1 (by decide)⟩

theorem giftSelectAction_post_validation
    (token : String) (products : List GiftProduct) (db : List GiftEligibility)
    (selections : List GiftSelection) (settings : Option GiftSettingsRec)
    (applyOne : Nat → AddResult) (now : Int) (selIdStart : Nat) (e : GiftEligibility)
    (htok : strTruthy (some token) = true)
    (hprod : products.isEmpty = false)
    (hfind : findByToken db token = some e)
    (hnexp : ¬ (now > e.expiresAt))
    (hs1 : e.status ≠ "selected") (hs2 : e.status ≠ "applied")
    (hcount : ¬ ((products.length : Int) > maxGiftsOf settings)) :
    giftSelectAction (some token) products db selections settings true applyOne
      now selIdStart =
      { response :=
          if (addGiftProducts applyOne products).1 then
            SelectResponse.fullSuccess "Your free gifts have been added to your next order!"
          else if ((addGiftProducts applyOne products).2.filter
              (fun r => r.success)).length == 0 then
            SelectResponse.failure ("Failed to add products to your subscription. Error: " ++
              joinErrors (addGiftProducts applyOne products).2)
          else
            SelectResponse.mixedSuccess
              (toString ((addGiftProducts applyOne products).2.filter
                  (fun r => r.success)).length ++
                " of " ++ toString products.length ++ " products were added. Some failed: " ++
                joinErrors (addGiftProducts applyOne products).2)
        dbAfter := db.map (fun e2 =>
          if e2.id == e.id then
            { e2 with
                status := if (addGiftProducts applyOne products).1 then "applied" else "selected"
                selectedAt := some now
                appliedAt := if (addGiftProducts applyOne products).1 then some now else none }
          else e2)
        selectionsAfter := selections ++ List.zipWith
          (fun s r => if r.success && strTruthy r.lineId then
            { s with addedToSubscription := true, appstleLineId := r.lineId }
          else s)
          (products.enum.map (fun pr =>
            { id := selIdStart + pr.1
              giftEligibilityId := e.id
              variantId := pr.2.variantId
              productTitle := pr.2.title
              quantity := 1
              addedToSubscription := false
              appstleLineId := none : GiftSelection }))
          (addGiftProducts applyOne products).2
        upstreamAttempts := products } := by
  simp [giftSelectAction, htok, hprod, hfind, hnexp, hs1, hs2, hcount]

theorem selCore_update (a : GiftSelection) (b : AddResult) :
    selCore (if b.success && strTruthy b.lineId then
      { a with addedToSubscription := true, appstleLineId := b.lineId } else a) = selCore a := by
  split <;> rfl

theorem map_selCore_zipWith (as : List GiftSelection) (bs : List AddResult)
    (hlen : bs.length = as.length) :
    (List.zipWith
      (fun s r => if r.success && strTruthy r.lineId then
        { s with addedToSubscription := true, appstleLineId := r.lineId }
      else s) as bs).map selCore = as.map selCore := by
  induction as generalizing bs with
  | nil => simp
  | cons a as ih =>
    cases bs with
    | nil => cases hlen
    | cons b bs =>
      simp only [List.zipWith_cons_cons, List.map_cons]
      rw [selCore_update a b, ih bs (by simpa using hlen)]

/-- Claim C4 (amended): after validation succeeds, one GiftSelection row per
chosen product is persisted, with its customer-intent fields independent of
the upstream outcomes; every product is attempted upstream; the eligibility
becomes `applied` with `appliedAt` stamped iff all products succeeded,
otherwise `selected` with `appliedAt` null, and `selectedAt` is always
stamped; the response is a failure when every product failed, and a success
with the partial flag and a message naming the success count and the total
product count when only some failed. -/
theorem redemption_persists_intent_and_reports
    (token : String) (products : List GiftProduct) (db : List GiftEligibility)
    (selections : List GiftSelection) (settings : Option GiftSettingsRec)
    (applyOne : Nat → AddResult) (now : Int) (selIdStart : Nat) (e : GiftEligibility)
    (hnd : (db.map (fun x => x.id)).Nodup)
    (htok : strTruthy (some token) = true)
    (hprod : products.isEmpty = false)
    (hfind : findByToken db token = some e)
    (hnexp : ¬ (now > e.expiresAt))
    (hs1 : e.status ≠ "selected") (hs2 : e.status ≠ "applied")
    (hcount : ¬ ((products.length : Int) > maxGiftsOf settings)) :
    (giftSelectAction (some token) products db selections settings true applyOne
      now selIdStart).upstreamAttempts = products ∧
    (giftSelectAction (some token) products db selections settings true applyOne
      now selIdStart).selectionsAfter.map selCore =
      selections.map selCore ++
        products.map (fun p => (e.id, p.variantId, p.title, (1 : Int))) ∧
    rowById (giftSelectAction (some token) products db selections settings true applyOne
      now selIdStart).dbAfter e.id =
      some { e with
        status := if (addGiftProducts applyOne products).1 then "applied" else "selected"
        selectedAt := some now
        appliedAt := if (addGiftProducts applyOne products).1 then some now else none } ∧
    ((addGiftProducts applyOne products).1 = true →
      (giftSelectAction (some token) products db selections settings true applyOne
        now selIdStart).response =
        SelectResponse.fullSuccess "Your free gifts have been added to your next order!") ∧
    ((addGiftProducts applyOne products).1 = false →
      ((addGiftProducts applyOne products).2.filter (fun r => r.success)).length = 0 →
      (giftSelectAction (some token) products db selections settings true applyOne
        now selIdStart).response =
        SelectResponse.failure ("Failed to add products to your subscription. Error: " ++
          joinErrors (addGiftProducts applyOne products).2)) ∧
    ((addGiftProducts applyOne products).1 = false →
      ((addGiftProducts applyOne products).2.filter (fun r => r.success)).length ≠ 0 →
      (giftSelectAction (some token) products db selections settings true applyOne
        now selIdStart).response =
        SelectResponse.mixedSuccess
          (toString ((addGiftProducts applyOne products).2.filter
              (fun r => r.success)).length ++
            " of " ++ toString products.length ++ " products were added. Some failed: " ++
            joinErrors (addGiftProducts applyOne products).2)) := by
  have hrun := giftSelectAction_post_validation token products db selections settings
    applyOne now selIdStart e htok hprod hfind hnexp hs1 hs2 hcount
  have hlen : (addGiftProducts applyOne products).2.length =
      (products.enum.map (fun pr =>
        { id := selIdStart + pr.1
          giftEligibilityId := e.id
          variantId := pr.2.variantId
          productTitle := pr.2.title
          quantity := 1
          addedToSubscription := false
          appstleLineId := none : GiftSelection })).length := by
    simp [addGiftProducts]
  refine ⟨by rw [hrun], ?_, ?_, ?_, ?_, ?_⟩
  · rw [hrun]
    show (selections ++ _).map selCore = _
    rw [List.map_append]
    congr 1
    rw [map_selCore_zipWith _ _ hlen, List.map_map]
    have hcomp : (selCore ∘ fun pr : Nat × GiftProduct =>
        ({ id := selIdStart + pr.1
           giftEligibilityId := e.id
           variantId := pr.2.variantId
           productTitle := pr.2.title
           quantity := 1
           addedToSubscription := false
           appstleLineId := none } : GiftSelection)) =
        (fun pr : Nat × GiftProduct => (e.id, pr.2.variantId, pr.2.title, (1 : Int))) := by
      funext pr
      rfl
    rw [hcomp]
    have : (fun pr : Nat × GiftProduct => (e.id, pr.2.variantId, pr.2.title, (1 : Int))) =
        ((fun p : GiftProduct => (e.id, p.variantId, p.title, (1 : Int))) ∘ Prod.snd) := rfl
    rw [this, ← List.map_map]
    rw [List.enum_map_snd]
  · rw [hrun]
    show rowById (db.map _) e.id = _
    rw [rowById_map _ (fun x => by split <;> rfl) db e.id]
    have hedb : e ∈ db := List.mem_of_find?_eq_some hfind
    rw [rowById_of_mem hnd hedb]
    show some _ = _
    beta_reduce
    rw [if_pos (by simp : (e.id == e.id) = true)]
  · intro hcase
    rw [hrun]
    show (if _ then _ else _) = _
    rw [if_pos hcase]
  · intro hcase hzero
    rw [hrun]
    show (if _ then _ else _) = _
    rw [if_neg (by simp [hcase]), if_pos (by simpa using hzero)]
  · intro hcase hnonzero
    rw [hrun]
    show (if _ then _ else _) = _
    rw [if_neg (by simp [hcase]), if_neg (by simpa using hnonzero)]

/-- Counterexample to claim C4: in a redemption of three products where
exactly one fails, the response is a partial success whose message is
"2 of 3 products were added. Some failed: boom" — it names the success
count (2) and the total (3), but the failure count (1) appears nowhere in
the message. -/
theorem partial_failure_message_lacks_failure_count :
    (giftSelectAction (some "tok1")
      [sampleProduct,
       { variantId := "v2", title := "P2", variantHandle := none, productHandle := none },
       { variantId := "v3", title := "P3", variantHandle := none, productHandle := none }]
      [sampleElig] [] (some sampleSettings) true
      (fun i => if i == 2 then { success := false, lineId := none, error := some "boom" }
        else { success := true, lineId := some "L", error := none })
      5 0).response =
      SelectResponse.mixedSuccess "2 of 3 products were added. Some failed: boom" ∧
    ¬ ('1' ∈ "2 of 3 products were added. Some failed: boom".data) := by
  constructor
  · decide
  · decide

/-- Witness for the redemption theorem at the same concrete partial-failure
input. -/
theorem redemption_persists_intent_and_reports_witness :
    (([sampleElig].map (fun x => x.id)).Nodup ∧
     strTruthy (some "tok1") = true ∧
     findByToken [sampleElig] "tok1" = some sampleElig ∧
     ¬ ((5 : Int) > sampleElig.expiresAt) ∧
     sampleElig.status ≠ "selected" ∧ sampleElig.status ≠ "applied" ∧
     ¬ ((3 : Int) > maxGiftsOf (some sampleSettings))) ∧
    (giftSelectAction (some "tok1")
      [sampleProduct,
       { variantId := "v2", title := "P2", variantHandle := none, productHandle := none },
       { variantId := "v3", title := "P3", variantHandle := none, productHandle := none }]
      [sampleElig] [] (some sampleSettings) true
      (fun i => if i == 2 then { success := false, lineId := none, error := some "boom" }
        else { success := true, lineId := some "L", error := none })
      5 0).response =
      SelectResponse.mixedSuccess "2 of 3 products were added. Some failed: boom" := by
  refine ⟨⟨by decide, by decide, by decide, by decide, by decide, by decide, by decide⟩, ?_⟩
  have h := (redemption_persists_intent_and_reports "tok1"
    [sampleProduct,
     { variantId := "v2", title := "P2", variantHandle := none, productHandle := none },
     { variantId := "v3", title := "P3", variantHandle := none, productHandle := none }]
    [sampleElig] [] (some sampleSettings)
    (fun i => if i == 2 then { success := false, lineId := none, error := some "boom" }
      else { success := true, lineId := some "L", error := none })
    5 0 sampleElig (by decide) (by decide) (by decide) (by decide) (by decide) (by decide)
    (by decide) (by decide)).2.2.2.2.2 (by decide) (by decide)
  rw [h]
  decide
